import Mathlib

/-!
Verification of the authum credential-lifecycle engine against its
natural-language specification.

The Python source (authum/persistence.py, authum/http.py, authum/plugin.py,
authum/util.py, authum/plugins/aws/lib.py and the provider plugin hook
implementations) is shallowly embedded below: pure functions become Lean
functions, stateful methods become explicit state passing, network calls
become oracle parameters holding the provider response, and code that can
raise becomes `Except`-valued.  Machine floats (Unix timestamps, poll
intervals) are modelled as exact rationals: the only arithmetic performed on
them in the source is subtraction, comparison, `+ 5` and `/ 1000`, whose
signs and values IEEE doubles preserve for the ranges involved.
-/

namespace Authum

/-! ## Python values and dicts

`dataclasses.asdict` produces a `dict` of field name to field value, and the
cache slots (`AWSData`) hold such dicts.  Every field of the dataclasses in
`authum.plugins.aws.lib` is a `str` or a `float`, so a Python value is
modelled as one of those two.  A dict is an association list with unique
keys; lookup returns the first match. -/

inductive PyVal where
  | str (s : String)
  | num (q : ℚ)
  deriving DecidableEq, Repr

/-- Python truthiness of a field value: empty strings and zero are falsy. -/
def PyVal.truthy : PyVal → Bool
  | .str s => s ≠ ""
  | .num q => q ≠ 0

abbrev PyDict := List (String × PyVal)

/-- `d.get(k)` / `d[k]` presence: the first binding for `k`. -/
def dictGet (d : PyDict) (k : String) : Option PyVal :=
  (d.find? (fun kv => kv.1 == k)).map (·.2)

/-- `d[k] = v`: replace the binding for `k` in place, else append it. -/
def dictSet : PyDict → String → PyVal → PyDict
  | [], k, v => [(k, v)]
  | kv :: rest, k, v =>
    if kv.1 == k then (k, v) :: rest else kv :: dictSet rest k v

theorem dictGet_dictSet (d : PyDict) (k : String) (v : PyVal) :
    dictGet (dictSet d k v) k = some v := by
  induction d with
  | nil => simp [dictGet, dictSet, List.find?]
  | cons kv rest ih =>
    by_cases h : kv.1 = k
    · simp [dictSet, h, dictGet, List.find?]
    · have hb : (kv.1 == k) = false := by simp [h]
      simp only [dictSet, hb, Bool.false_eq_true, if_false]
      have hf : List.find? (fun kv => kv.1 == k) (kv :: dictSet rest k v)
          = List.find? (fun kv => kv.1 == k) (dictSet rest k v) := by
        simp [List.find?, hb]
      simpa only [dictGet, hf] using ih

/-! ## `authum.util`: URL parsing helpers

`is_url` and `url_has_domain` call `urllib.parse.urlparse`.  The parts of
CPython's `urlsplit` that they observe (`scheme`, `netloc`, `hostname`) are
embedded here over `List Char`:

* the URL is first left-stripped of WHATWG C0-control-or-space characters
  and all tab/CR/LF bytes are removed;
* a scheme is recognised when the first colon is preceded by a non-empty
  run of scheme characters starting with an ASCII letter;
* when the remainder starts with `//`, the netloc runs up to the first of
  `/`, `?`, `#`; a netloc containing `[` without `]` (or vice versa) raises
  `ValueError("Invalid IPv6 URL")`;
* `hostname` takes the netloc after the last `@`, then the part bracketed
  by `[`..`]` if a `[` is present, else the part before the first `:`,
  lowercased; an empty hostname is `None`.
-/

inductive PyErr where
  | awsPluginError (msg : String)
  | keyError (k : String)
  | valueError (msg : String)
  | typeError (msg : String)
  | attributeError (msg : String)
  | clientError (msg : String)
  deriving DecidableEq, Repr

def schemeChar (c : Char) : Bool :=
  c.isAlpha || c.isDigit || c == '+' || c == '-' || c == '.'

def netlocDelim (c : Char) : Bool :=
  c == '/' || c == '?' || c == '#'

/-- Leading-character strip performed by `urlsplit` (codepoints `≤ 0x20`). -/
def lstripC0 (l : List Char) : List Char :=
  l.dropWhile (fun c => c.toNat ≤ 0x20)

/-- `urlsplit` removes every tab, CR and LF from the URL. -/
def stripTabCrLf (l : List Char) : List Char :=
  l.filter (fun c => !(c == '\t' || c == '\r' || c == '\n'))

/-- Scheme recognition: `i = url.find(':')`; a scheme exists iff `i > 0`,
`url[0]` is an ASCII letter and every character before the colon is a scheme
character.  `first` is `url[0]`, `acc` the characters scanned so far in
reverse. -/
def schemeScan (first : Char) : List Char → List Char → Option (List Char × List Char)
  | _, [] => Option.none
  | acc, c :: rest =>
    if c == ':' then
      if acc ≠ [] && first.isAlpha then some (acc.reverse, rest) else Option.none
    else if schemeChar c then schemeScan first (c :: acc) rest
    else Option.none

structure SplitResult where
  scheme : List Char
  netloc : List Char
  deriving DecidableEq, Repr

/-- Scheme recognition over the whole (stripped) URL: the lowercased scheme
and the remainder after the colon, or no scheme. -/
def splitSchemeRest (u : List Char) : List Char × List Char :=
  match u with
  | [] => ([], u)
  | c0 :: _ =>
    match schemeScan c0 [] u with
    | some (s, rest) => (s.map Char.toLower, rest)
    | Option.none => ([], u)

/-- `_splitnetloc`: when the post-scheme remainder starts with `//`, the
netloc runs from there up to the first of `/`, `?`, `#`; else it is empty. -/
def netlocOf : List Char → List Char
  | '/' :: '/' :: r2 => r2.takeWhile (fun c => !netlocDelim c)
  | _ => []

/-- `str.isascii()` of a character: codepoint below 128. -/
def charIsASCII (c : Char) : Bool := c.toNat ≤ 0x7f

/-- The scheme/netloc part of CPython `urlsplit` (3.11), with its three
validation raises in source order:

* a netloc containing `[` without `]` (or vice versa) raises
  `ValueError("Invalid IPv6 URL")` — an empty netloc, the non-`//` case,
  never trips it;
* a netloc containing a bracketed host has that host validated by
  `_check_bracketed_host` (3.11.4+), which raises `ValueError` unless it is
  a valid IPv6 or IPvFuture address — address validity needs the
  `ipaddress` module, so the model *conservatively rejects every bracketed
  host*;
* `_checknetloc` returns immediately for an empty or all-ASCII netloc and
  otherwise raises `ValueError` when the NFKC normalization of the netloc
  (minus `@:#?`) changes it and introduces one of `/?#@:` — the NFKC
  tables are not embeddable here, so the model *conservatively rejects
  every non-ASCII netloc*.

The conservative direction is sound for every theorem below: whenever this
model returns `.ok`, the netloc is ASCII and bracket-free, both unmodelled
validations are no-ops in CPython, and CPython returns the same result; at
the two "outside model" errors CPython may instead succeed, and no theorem
concludes anything from them. -/
def urlsplit (url : List Char) : Except PyErr SplitResult :=
  let u := stripTabCrLf (lstripC0 url)
  let sr := splitSchemeRest u
  let netloc := netlocOf sr.2
  if ('[' ∈ netloc ∧ ']' ∉ netloc) ∨ (']' ∈ netloc ∧ '[' ∉ netloc) then
    .error (.valueError "Invalid IPv6 URL")
  else if '[' ∈ netloc ∧ ']' ∈ netloc then
    .error (.valueError "bracketed host: validity outside model")
  else if ¬ netloc.all charIsASCII then
    .error (.valueError "non-ASCII netloc: NFKC validation outside model")
  else
    .ok ⟨sr.1, netloc⟩

/-- `SplitResult.hostname`: netloc after the last `@`; if a `[` is present,
the portion between `[` and `]`, else the portion before the first `:`;
lowercased; empty gives `None`. -/
def hostnameOfNetloc (netloc : List Char) : Option (List Char) :=
  let hostinfo := (netloc.reverse.takeWhile (fun c => c ≠ '@')).reverse
  let host :=
    if '[' ∈ hostinfo then
      ((hostinfo.dropWhile (fun c => c ≠ '[')).drop 1).takeWhile (fun c => c ≠ ']')
    else
      hostinfo.takeWhile (fun c => c ≠ ':')
  let lowered := host.map Char.toLower
  if lowered = [] then Option.none else some lowered

/-- `authum.util.is_url`: both `scheme` and `netloc` are non-empty. -/
def is_url (url : String) : Except PyErr Bool := do
  let r ← urlsplit url.toList
  return (r.scheme ≠ [] && r.netloc ≠ [])

/-- `authum.util.url_has_domain`: `urlparse(url).hostname == domain`
(a `None` hostname never equals a string domain). -/
def url_has_domain (url domain : String) : Except PyErr Bool := do
  let r ← urlsplit url.toList
  return match hostnameOfNetloc r.netloc with
    | Option.none => false
    | some h => h = domain.toList

/-- `authum.plugins.aws.lib.normalize_start_url` with its default arguments
(`scheme="https://"`, `domain="awsapps.com"`, `path="/start#/"`). -/
def normalize_start_url (subdomain_or_url : String) : Except PyErr String := do
  let b ← is_url subdomain_or_url
  if b then
    return subdomain_or_url
  else
    return ("https://" ++ subdomain_or_url ++ "." ++ "awsapps.com" ++ "/start#/")

/-! ## `authum.http`: SAML assertion attributes

`SAMLAssertionAttributes` wraps the first `saml:AttributeStatement` element
of the parsed assertion (`root.find(...)` gives `None` when absent).  An
`Attribute` child is modelled by its `Name` and the `.text` of each of its
`AttributeValue` children (`.text` is `None` for an empty element, modelled
by `Option.none`).  ElementTree elements are falsy when they have no
children, so the statement is falsy iff its `Attribute` list is empty and an
`Attribute` is falsy iff its value list is empty.

`__getitem__(k)`:
* falsy (absent or childless) statement: return `[]`;
* `find` the first `Attribute` with `Name=k`: absent or falsy raises
  `KeyError(k)`;
* else return the list of its `AttributeValue` texts. -/

structure SAMLAttr where
  name : String
  values : List (Option String)
  deriving DecidableEq, Repr

inductive GetItemResult where
  | ok (values : List (Option String))
  | keyError (k : String)
  deriving DecidableEq, Repr

def saml_attrs_getitem (attribute_statement : Option (List SAMLAttr))
    (k : String) : GetItemResult :=
  match attribute_statement with
  | Option.none => .ok []
  | some stmt =>
    if stmt.isEmpty then .ok []
    else
      match stmt.find? (fun a => a.name == k) with
      | Option.none => .keyError k
      | some a => if a.values.isEmpty then .keyError k else .ok a.values

/-- `authum.http.SAMLAssertion` as consumed by the AWS plugin: its base64
encoding and its parsed attribute statement. -/
structure SAMLAssertion where
  b64encoded : String
  attribute_statement : Option (List SAMLAttr)
  deriving DecidableEq, Repr

/-! ## `authum.plugin`: the `saml_request` hook

The hook is declared with `firstresult=True`.  pluggy stores plain (non
`tryfirst`/`trylast`) implementations in registration order and
`_multicall` iterates over `reversed(hook_impls)`, so implementations are
consulted in LIFO order: the implementation of the *last* registered plugin
runs first.  The first non-`None` result stops the dispatch.

Each provider implementation (`authum.plugins.okta.__init__.saml_request`,
`authum.plugins.jumpcloud.__init__.saml_request`) self-selects with
`authum.util.url_has_domain(url, <its configured domain>)` and only then
authenticates and performs the SAML request; a provider whose domain does
not match falls through returning `None`.  The assertion a provider's
authentication path would produce is the oracle field `assertion`. -/

structure SAMLProvider where
  name : String
  domain : String
  assertion : SAMLAssertion
  deriving DecidableEq, Repr

/-- One hook implementation: domain check, then (modelled) authentication. -/
def providerStep (url : String) (p : SAMLProvider) :
    Except PyErr (Option SAMLAssertion) := do
  let b ← url_has_domain url p.domain
  if b then return some p.assertion else return Option.none

/-- `_multicall` with `firstresult=True` over an already-ordered call list:
stop at the first implementation returning non-`None`.  Also returns the
names of the providers whose authentication path executed. -/
def firstresult (url : String) :
    List SAMLProvider → Except PyErr (Option SAMLAssertion × List String)
  | [] => .ok (Option.none, [])
  | p :: ps => do
    match ← providerStep url p with
    | some a => return (some a, [p.name])
    | Option.none => firstresult url ps

/-- `authum.plugin.manager.hook.saml_request(url=...)`: providers are
consulted in reverse registration order (pluggy LIFO). -/
def saml_request (registered : List SAMLProvider) (url : String) :
    Except PyErr (Option SAMLAssertion × List String) :=
  firstresult url registered.reverse

/-! ## `AWSSSOAuthorization.renew`: the `create_token` polling loop

```
response = {}
interval = authorization["interval"]
for i in itertools.count(1):
    try:
        response = sso_oidc.create_token(...)
        break
    except sso_oidc.exceptions.AuthorizationPendingException:
        pass
    except sso_oidc.exceptions.SlowDownException:
        interval += 5
        pass
    time.sleep(interval)
```

The provider's successive replies are the oracle list; the loop itself is
unbounded, so the model returns `exhausted` when the finite oracle list runs
out while the real loop would still be polling.  Note that a success breaks
*before* sleeping, and that after a slow-down the *increased* interval is
slept. -/

inductive TokenResponse where
  | success (accessToken : String) (expiresIn : ℚ)
  | authorizationPending
  | slowDown
  | otherError (msg : String)
  deriving DecidableEq, Repr

inductive PollResult where
  | ok (accessToken : String) (expiresIn : ℚ)
  | raised (msg : String)
  | exhausted
  deriving DecidableEq, Repr

def create_token_loop (interval : ℚ) :
    List TokenResponse → PollResult × List ℚ
  | [] => (.exhausted, [])
  | .success t e :: _ => (.ok t e, [])
  | .authorizationPending :: rs =>
    let r := create_token_loop interval rs
    (r.1, interval :: r.2)
  | .slowDown :: rs =>
    let r := create_token_loop (interval + 5) rs
    (r.1, (interval + 5) :: r.2)
  | .otherError m :: _ => (.raised m, [])

/-! ## `CacheableAWSObject`: ttl and expiry

```
now = datetime.datetime.now(datetime.timezone.utc)
try:
    expiration = datetime.datetime.fromtimestamp(float(self.expiration_timestamp), tz=utc)
except ValueError:
    expiration = now
return expiration - now
```

`datetime.fromtimestamp` succeeds exactly for timestamps inside the
representable `datetime` range (year 1 through year 9999); on a timestamp
outside it but still convertible to the platform `time_t` it raises
`ValueError`, which the code catches by substituting `now`, i.e. a ttl of
zero.  (Timestamps far beyond the 64-bit `time_t` range make CPython raise
an uncaught `OverflowError` instead; such astronomically large values are
outside this model, and the theorems about the fallback branch carry an
explicit bound.)  Timestamps are IEEE doubles whose spacing near the range
boundaries is far coarser than the microsecond rounding `fromtimestamp`
applies, so the strict comparison against the boundary is exact. -/

/-- Timestamp of `datetime.min` (0001-01-01T00:00:00 UTC). -/
def minTimestamp : ℚ := -62135596800

/-- Timestamp of the first unrepresentable instant (10000-01-01T00:00:00 UTC). -/
def maxTimestamp : ℚ := 253402300800

/-- Bound within which `fromtimestamp` failure is a caught `ValueError`. -/
def timetBound : ℚ := 2 ^ 62

/-- `CacheableAWSObject.ttl`, in seconds (the `timedelta` is exact). -/
def ttl (expiration_timestamp now : ℚ) : ℚ :=
  if minTimestamp ≤ expiration_timestamp ∧ expiration_timestamp < maxTimestamp then
    expiration_timestamp - now
  else 0

/-- `CacheableAWSObject.is_expired`: `self.ttl < datetime.timedelta()`. -/
def is_expired (expiration_timestamp now : ℚ) : Bool :=
  ttl expiration_timestamp now < 0

/-! ## `CacheableAWSObject.load_cached_fields` and `require_fields`

```
for field in fields:
    local_val = getattr(self, field)
    if not local_val:
        setattr(self, field, cache.get(field, local_val))
```

With the default empty `fields` argument the loop runs over every dataclass
field.  A field is replaced exactly when its current value is falsy; a
truthy current value always wins over the cache. -/

/-- `load_cached_fields` over the object's full field dict. -/
def load_cached_fields (self cache : PyDict) : PyDict :=
  self.map (fun kv =>
    if kv.2.truthy then kv
    else (kv.1, (dictGet cache kv.1).getD kv.2))

/-- Dataclass construction: every field starts at its declared default and
explicitly supplied keyword arguments overwrite it. -/
def dataclass_construct (defaults supplied : PyDict) : PyDict :=
  defaults.map (fun kv => (kv.1, (dictGet supplied kv.1).getD kv.2))

/-- `require_fields(*fields)` over string fields: collect the falsy ones and
raise `ValueError` naming them. -/
def require_fields (fields : List (String × String)) : Except PyErr Unit :=
  let missing_fields := (fields.filter (fun p => p.2 = "")).map (·.1)
  if missing_fields = [] then .ok ()
  else .error (.valueError ("Missing required fields: " ++ String.intercalate ", " missing_fields))

/-- Typed counterpart of one `load_cached_fields` step for a `str` field:
keep a truthy (non-empty) value, else take the cached value when the key is
present. -/
def loadStr (cur : String) (cached : Option String) : String :=
  if cur ≠ "" then cur else cached.getD cur

/-- Typed counterpart of one `load_cached_fields` step for a `float` field. -/
def loadNum (cur : ℚ) (cached : Option ℚ) : ℚ :=
  if cur ≠ 0 then cur else cached.getD cur

/-! ## `AWSSSORegistration` -/

/-- Field order follows the dataclass: the inherited
`expiration_timestamp` first, then the class's own fields. -/
structure AWSSSORegistration where
  expiration_timestamp : ℚ
  client_id : String
  client_secret : String
  deriving DecidableEq, Repr

/-- The cache slot `cache.get("sso", {}).get("registration", {})`, one
optional entry per dataclass field (a key can be missing from the dict). -/
structure RegistrationSlot where
  expiration_timestamp : Option ℚ
  client_id : Option String
  client_secret : Option String
  deriving DecidableEq, Repr

/-- `AWSSSORegistration.load`: `load_cached_fields` at this field list. -/
def AWSSSORegistration.load (self : AWSSSORegistration) (slot : RegistrationSlot) :
    AWSSSORegistration where
  expiration_timestamp := loadNum self.expiration_timestamp slot.expiration_timestamp
  client_id := loadStr self.client_id slot.client_id
  client_secret := loadStr self.client_secret slot.client_secret

/-- Oracle reply of `sso_oidc.register_client`. -/
structure RegisterClientResponse where
  clientId : String
  clientSecret : String
  clientSecretExpiresAt : ℚ
  deriving DecidableEq, Repr

/-- Observable effects of one `renew` invocation: the final object state,
whether the provider protocol was executed (network traffic), and the state
written back to the cache slot, if any. -/
structure RegistrationRenewTrace where
  result : AWSSSORegistration
  protocolRan : Bool
  cacheWrite : Option AWSSSORegistration
  deriving DecidableEq, Repr

/-- `AWSSSORegistration.renew(force)`. -/
def AWSSSORegistration.renew (self : AWSSSORegistration) (slot : RegistrationSlot)
    (force : Bool) (now : ℚ) (resp : RegisterClientResponse) :
    RegistrationRenewTrace :=
  let loaded := self.load slot
  if !force && !is_expired loaded.expiration_timestamp now then
    ⟨loaded, false, Option.none⟩
  else
    let final : AWSSSORegistration :=
      { expiration_timestamp := resp.clientSecretExpiresAt
        client_id := resp.clientId
        client_secret := resp.clientSecret }
    ⟨final, true, some final⟩

/-! ## `AWSSSOAuthorization` -/

structure AWSSSOAuthorization where
  expiration_timestamp : ℚ
  start_url : String
  access_token : String
  deriving DecidableEq, Repr

/-- The cache slot
`cache.get("sso", {}).get("authorization", {}).get(self.start_url, {})`. -/
structure AuthorizationSlot where
  expiration_timestamp : Option ℚ
  start_url : Option String
  access_token : Option String
  deriving DecidableEq, Repr

def AWSSSOAuthorization.load (self : AWSSSOAuthorization) (slot : AuthorizationSlot) :
    AWSSSOAuthorization where
  expiration_timestamp := loadNum self.expiration_timestamp slot.expiration_timestamp
  start_url := loadStr self.start_url slot.start_url
  access_token := loadStr self.access_token slot.access_token

/-- Oracle reply of `sso_oidc.start_device_authorization`. -/
structure DeviceAuthorizationResponse where
  verificationUriComplete : String
  deviceCode : String
  interval : ℚ
  deriving DecidableEq, Repr

structure AuthorizationRenewTrace where
  outcome : Except PyErr AWSSSOAuthorization
  protocolRan : Bool
  cacheWrite : Option AWSSSOAuthorization
  sleeps : List ℚ
  deriving Repr

/-- `AWSSSOAuthorization.renew(registration, force)`: after the guard, start
the device authorization, open the browser, and poll `create_token`.  A
successful poll stores the token with
`expiration_timestamp = timestamp(now + expiresIn)`; the full entity is then
written back to its slot.  A terminal poll error propagates as the boto
client exception.  `registration` only supplies the request's client id and
secret, which the oracle reply already reflects. -/
def AWSSSOAuthorization.renew (self : AWSSSOAuthorization)
    (_registration : AWSSSORegistration) (slot : AuthorizationSlot)
    (force : Bool) (now : ℚ) (authz : DeviceAuthorizationResponse)
    (toks : List TokenResponse) : AuthorizationRenewTrace :=
  let loaded := self.load slot
  if !force && !is_expired loaded.expiration_timestamp now then
    ⟨.ok loaded, false, Option.none, []⟩
  else
    match create_token_loop authz.interval toks with
    | (.ok accessToken expiresIn, sleeps) =>
      let final : AWSSSOAuthorization :=
        { expiration_timestamp := now + expiresIn
          start_url := loaded.start_url
          access_token := accessToken }
      ⟨.ok final, true, some final, sleeps⟩
    | (.raised m, sleeps) => ⟨.error (.clientError m), true, Option.none, sleeps⟩
    | (.exhausted, sleeps) =>
      ⟨.error (.clientError "modelled response sequence exhausted"), true, Option.none, sleeps⟩

/-! ## `AWSRoleCredentials` and its two variants

`AWSSSORoleCredentials` and `AWSSAMLRoleCredentials` extend
`AWSRoleCredentials` (which extends `CacheableAWSObject`); they are embedded
as flat structures whose field order follows `dataclasses.fields`: the
inherited `expiration_timestamp`, the base credential fields, then the
variant's own identity fields. -/

structure AWSSSORoleCredentials where
  expiration_timestamp : ℚ
  name : String
  access_key_id : String
  secret_access_key : String
  session_token : String
  assume_role_arn : String
  assume_role_external_id : String
  sts_endpoint : String
  start_url : String
  account_id : String
  role_name : String
  deriving DecidableEq, Repr

structure AWSSAMLRoleCredentials where
  expiration_timestamp : ℚ
  name : String
  access_key_id : String
  secret_access_key : String
  session_token : String
  assume_role_arn : String
  assume_role_external_id : String
  sts_endpoint : String
  saml_url : String
  deriving DecidableEq, Repr

/-- `__post_init__` of `AWSRoleCredentials` then of `AWSSSORoleCredentials`:
`require_fields("name")`, then
`require_fields("start_url", "account_id", "role_name")`. -/
def AWSSSORoleCredentials.post_init (c : AWSSSORoleCredentials) : Except PyErr Unit := do
  require_fields [("name", c.name)]
  require_fields [("start_url", c.start_url), ("account_id", c.account_id),
    ("role_name", c.role_name)]

/-- `__post_init__` of `AWSRoleCredentials` then of `AWSSAMLRoleCredentials`:
`require_fields("name")`, then `require_fields("saml_url")`. -/
def AWSSAMLRoleCredentials.post_init (c : AWSSAMLRoleCredentials) : Except PyErr Unit := do
  require_fields [("name", c.name)]
  require_fields [("saml_url", c.saml_url)]

/-- `dataclasses.asdict` in field order. -/
def AWSSSORoleCredentials.asdict (c : AWSSSORoleCredentials) : PyDict :=
  [("expiration_timestamp", .num c.expiration_timestamp),
   ("name", .str c.name),
   ("access_key_id", .str c.access_key_id),
   ("secret_access_key", .str c.secret_access_key),
   ("session_token", .str c.session_token),
   ("assume_role_arn", .str c.assume_role_arn),
   ("assume_role_external_id", .str c.assume_role_external_id),
   ("sts_endpoint", .str c.sts_endpoint),
   ("start_url", .str c.start_url),
   ("account_id", .str c.account_id),
   ("role_name", .str c.role_name)]

def AWSSAMLRoleCredentials.asdict (c : AWSSAMLRoleCredentials) : PyDict :=
  [("expiration_timestamp", .num c.expiration_timestamp),
   ("name", .str c.name),
   ("access_key_id", .str c.access_key_id),
   ("secret_access_key", .str c.secret_access_key),
   ("session_token", .str c.session_token),
   ("assume_role_arn", .str c.assume_role_arn),
   ("assume_role_external_id", .str c.assume_role_external_id),
   ("sts_endpoint", .str c.sts_endpoint),
   ("saml_url", .str c.saml_url)]

/-- Keyword-argument extraction for a `str` field with default `""`.  A
value of the wrong runtime type would be stored untouched by the dataclass;
the typed embedding reports it as a type error instead, a path no dict
produced by `asdict` can take. -/
def kwStr (d : PyDict) (k : String) : Except PyErr String :=
  match dictGet d k with
  | Option.none => .ok ""
  | some (.str s) => .ok s
  | some (.num _) => .error (.typeError k)

/-- Keyword-argument extraction for a `float` field with default `0`. -/
def kwNum (d : PyDict) (k : String) : Except PyErr ℚ :=
  match dictGet d k with
  | Option.none => .ok 0
  | some (.num q) => .ok q
  | some (.str _) => .error (.typeError k)

def ssoFieldNames : List String :=
  ["expiration_timestamp", "name", "access_key_id", "secret_access_key",
   "session_token", "assume_role_arn", "assume_role_external_id",
   "sts_endpoint", "start_url", "account_id", "role_name"]

def samlFieldNames : List String :=
  ["expiration_timestamp", "name", "access_key_id", "secret_access_key",
   "session_token", "assume_role_arn", "assume_role_external_id",
   "sts_endpoint", "saml_url"]

/-- `AWSSSORoleCredentials(**args)`: a key that is no field raises
`TypeError`, missing keys take the field defaults, then `__post_init__`
validates the required fields. -/
def AWSSSORoleCredentials.construct (d : PyDict) : Except PyErr AWSSSORoleCredentials := do
  if !(d.all (fun kv => kv.1 ∈ ssoFieldNames)) then
    .error (.typeError "unexpected keyword argument")
  let c : AWSSSORoleCredentials :=
    { expiration_timestamp := ← kwNum d "expiration_timestamp"
      name := ← kwStr d "name"
      access_key_id := ← kwStr d "access_key_id"
      secret_access_key := ← kwStr d "secret_access_key"
      session_token := ← kwStr d "session_token"
      assume_role_arn := ← kwStr d "assume_role_arn"
      assume_role_external_id := ← kwStr d "assume_role_external_id"
      sts_endpoint := ← kwStr d "sts_endpoint"
      start_url := ← kwStr d "start_url"
      account_id := ← kwStr d "account_id"
      role_name := ← kwStr d "role_name" }
  c.post_init
  return c

def AWSSAMLRoleCredentials.construct (d : PyDict) : Except PyErr AWSSAMLRoleCredentials := do
  if !(d.all (fun kv => kv.1 ∈ samlFieldNames)) then
    .error (.typeError "unexpected keyword argument")
  let c : AWSSAMLRoleCredentials :=
    { expiration_timestamp := ← kwNum d "expiration_timestamp"
      name := ← kwStr d "name"
      access_key_id := ← kwStr d "access_key_id"
      secret_access_key := ← kwStr d "secret_access_key"
      session_token := ← kwStr d "session_token"
      assume_role_arn := ← kwStr d "assume_role_arn"
      assume_role_external_id := ← kwStr d "assume_role_external_id"
      sts_endpoint := ← kwStr d "sts_endpoint"
      saml_url := ← kwStr d "saml_url" }
  c.post_init
  return c

/-! ## `AWSData`: the credentials store

`self["credentials"]` maps a logical name to the `asdict` of the stored
instance; `credentials(name)` re-dispatches on the presence of the
`"start_url"` key. -/

abbrev CredentialsStore := List (String × PyDict)

def storeGet (d : CredentialsStore) (k : String) : Option PyDict :=
  (d.find? (fun kv => kv.1 == k)).map (·.2)

def storeSet : CredentialsStore → String → PyDict → CredentialsStore
  | [], k, v => [(k, v)]
  | kv :: rest, k, v =>
    if kv.1 == k then (k, v) :: rest else kv :: storeSet rest k v

/-- `AWSData.set_credentials(name, v)`:
`self.setdefault("credentials", {})[name] = dataclasses.asdict(v)`. -/
def AWSData.set_sso_credentials (store : CredentialsStore) (name : String)
    (v : AWSSSORoleCredentials) : CredentialsStore :=
  storeSet store name v.asdict

def AWSData.set_saml_credentials (store : CredentialsStore) (name : String)
    (v : AWSSAMLRoleCredentials) : CredentialsStore :=
  storeSet store name v.asdict

/-- `AWSData.credentials(name)`: `args = self["credentials"][name]`, then
`AWSSSORoleCredentials(**args)` when `"start_url" in args`, else
`AWSSAMLRoleCredentials(**args)`. -/
def AWSData.credentials (store : CredentialsStore) (name : String) :
    Except PyErr (Sum AWSSSORoleCredentials AWSSAMLRoleCredentials) := do
  match storeGet store name with
  | Option.none => .error (.keyError name)
  | some args =>
    if (dictGet args "start_url").isSome then
      return .inl (← AWSSSORoleCredentials.construct args)
    else
      return .inr (← AWSSAMLRoleCredentials.construct args)

/-! ## Role-credential `load` and `renew` -/

/-- The cache slot `cache.get("credentials", {}).get(self.name, {})` seen
through the field list of the loading class (a key can be missing). -/
structure RoleCredentialsSlot where
  expiration_timestamp : Option ℚ
  name : Option String
  access_key_id : Option String
  secret_access_key : Option String
  session_token : Option String
  assume_role_arn : Option String
  assume_role_external_id : Option String
  sts_endpoint : Option String
  start_url : Option String
  account_id : Option String
  role_name : Option String
  saml_url : Option String
  deriving DecidableEq, Repr

/-- `AWSRoleCredentials.load` at the SSO variant's field list. -/
def AWSSSORoleCredentials.load (c : AWSSSORoleCredentials)
    (slot : RoleCredentialsSlot) : AWSSSORoleCredentials where
  expiration_timestamp := loadNum c.expiration_timestamp slot.expiration_timestamp
  name := loadStr c.name slot.name
  access_key_id := loadStr c.access_key_id slot.access_key_id
  secret_access_key := loadStr c.secret_access_key slot.secret_access_key
  session_token := loadStr c.session_token slot.session_token
  assume_role_arn := loadStr c.assume_role_arn slot.assume_role_arn
  assume_role_external_id := loadStr c.assume_role_external_id slot.assume_role_external_id
  sts_endpoint := loadStr c.sts_endpoint slot.sts_endpoint
  start_url := loadStr c.start_url slot.start_url
  account_id := loadStr c.account_id slot.account_id
  role_name := loadStr c.role_name slot.role_name

/-- `AWSRoleCredentials.load` at the SAML variant's field list. -/
def AWSSAMLRoleCredentials.load (c : AWSSAMLRoleCredentials)
    (slot : RoleCredentialsSlot) : AWSSAMLRoleCredentials where
  expiration_timestamp := loadNum c.expiration_timestamp slot.expiration_timestamp
  name := loadStr c.name slot.name
  access_key_id := loadStr c.access_key_id slot.access_key_id
  secret_access_key := loadStr c.secret_access_key slot.secret_access_key
  session_token := loadStr c.session_token slot.session_token
  assume_role_arn := loadStr c.assume_role_arn slot.assume_role_arn
  assume_role_external_id := loadStr c.assume_role_external_id slot.assume_role_external_id
  sts_endpoint := loadStr c.sts_endpoint slot.sts_endpoint
  saml_url := loadStr c.saml_url slot.saml_url

/-- Oracle reply of `sts.assume_role` / `sts.assume_role_with_saml`:
the credential triple plus `Credentials.Expiration.timestamp()`. -/
structure STSCredentialsResponse where
  accessKeyId : String
  secretAccessKey : String
  sessionToken : String
  expirationTimestamp : ℚ
  deriving DecidableEq, Repr

/-- Field effects of `AWSRoleCredentials.assume_role` on the SSO variant
(`get_caller_identity` only shapes the `RoleSessionName` request parameter,
which the oracle reply already reflects). -/
def AWSSSORoleCredentials.apply_assume_role (c : AWSSSORoleCredentials)
    (r : STSCredentialsResponse) : AWSSSORoleCredentials :=
  { c with
    access_key_id := r.accessKeyId
    secret_access_key := r.secretAccessKey
    session_token := r.sessionToken
    expiration_timestamp := r.expirationTimestamp }

def AWSSAMLRoleCredentials.apply_assume_role (c : AWSSAMLRoleCredentials)
    (r : STSCredentialsResponse) : AWSSAMLRoleCredentials :=
  { c with
    access_key_id := r.accessKeyId
    secret_access_key := r.secretAccessKey
    session_token := r.sessionToken
    expiration_timestamp := r.expirationTimestamp }

/-- Oracle reply of `sso.get_role_credentials`; `expiration` is in epoch
milliseconds (the code divides it by 1000). -/
structure GetRoleCredentialsResponse where
  accessKeyId : String
  secretAccessKey : String
  sessionToken : String
  expiration : ℚ
  deriving DecidableEq, Repr

structure SSOCredentialsRenewTrace where
  outcome : Except PyErr AWSSSORoleCredentials
  protocolRan : Bool
  cacheWrite : Option AWSSSORoleCredentials
  deriving Repr

/-- `AWSSSORoleCredentials.renew(force)`: after the guard, construct
`AWSSSOClient(start_url=self.start_url)` — which renews a *fresh*
`AWSSSORegistration()` and a fresh `AWSSSOAuthorization(start_url)` with
`force=False` against their own cache slots — then exchange the
authorization's access token via `sso.get_role_credentials`, divide the
returned millisecond expiry by 1000, optionally chain `assume_role`, and
write the full entity back to `cache["credentials"][self.name]`. -/
def AWSSSORoleCredentials.renew (self : AWSSSORoleCredentials)
    (slot : RoleCredentialsSlot) (force : Bool) (now : ℚ)
    (regSlot : RegistrationSlot) (regResp : RegisterClientResponse)
    (authzSlot : AuthorizationSlot) (authzResp : DeviceAuthorizationResponse)
    (toks : List TokenResponse)
    (roleResp : GetRoleCredentialsResponse)
    (assumeResp : STSCredentialsResponse) : SSOCredentialsRenewTrace :=
  let loaded := self.load slot
  if !force && !is_expired loaded.expiration_timestamp now then
    ⟨.ok loaded, false, Option.none⟩
  else
    let regTrace := AWSSSORegistration.renew ⟨0, "", ""⟩ regSlot false now regResp
    let authzTrace := AWSSSOAuthorization.renew ⟨0, loaded.start_url, ""⟩
      regTrace.result authzSlot false now authzResp toks
    match authzTrace.outcome with
    | .error e => ⟨.error e, true, Option.none⟩
    | .ok _authorization =>
      let c1 : AWSSSORoleCredentials :=
        { loaded with
          access_key_id := roleResp.accessKeyId
          secret_access_key := roleResp.secretAccessKey
          session_token := roleResp.sessionToken
          expiration_timestamp := roleResp.expiration / 1000 }
      let c2 := if c1.assume_role_arn ≠ "" then c1.apply_assume_role assumeResp else c1
      ⟨.ok c2, true, some c2⟩

/-! ## `AWSSAMLRoleCredentials.renew`: SAML/STS exchange -/

/-- Characters `int()` strips around the literal (ASCII whitespace). -/
def pyWhitespace (c : Char) : Bool :=
  c == ' ' || c == '\t' || c == '\n' || c == '\r' || c == '\x0b' || c == '\x0c'

def digitsVal (ds : List Char) : Option Int :=
  if ds ≠ [] && ds.all Char.isDigit then
    some (ds.foldl (fun a c => a * 10 + ((c.toNat : Int) - ('0'.toNat : Int))) 0)
  else Option.none

/-- Python `int(s)`: strip whitespace, optional single sign, non-empty digit
run (digit-group underscores are not modelled).  `Option.none` is the
`ValueError` of an unparseable literal. -/
def pyInt (s : String) : Option Int :=
  let l := ((s.toList.dropWhile pyWhitespace).reverse.dropWhile pyWhitespace).reverse
  match l with
  | '+' :: ds => digitsVal ds
  | '-' :: ds => (digitsVal ds).map (fun n => -n)
  | ds => digitsVal ds

/-- Python `str.split(sep)` for the single-character separator `","` used
by the role-attribute parsing. -/
def splitComma : List Char → List (List Char)
  | [] => [[]]
  | c :: rest =>
    if c = ',' then [] :: splitComma rest
    else
      match splitComma rest with
      | [] => [[c]]
      | g :: gs => (c :: g) :: gs

def roleAttributeName : String := "https://aws.amazon.com/SAML/Attributes/Role"

def durationAttributeName : String := "https://aws.amazon.com/SAML/Attributes/SessionDuration"

/-- The keyword arguments passed to `sts.assume_role_with_saml`
(`samlAssertion` holds the `"SAMLAssertion"` entry). -/
structure AssumeRoleWithSAMLArgs where
  samlAssertion : String
  roleArn : String
  principalArn : String
  durationSeconds : Option Int
  deriving DecidableEq, Repr

/-- The argument-building block of `AWSSAMLRoleCredentials.renew`:

```
assume_role_args = {"SAMLAssertion": assertion.b64encoded}
try:
    role = assertion.attrs[ROLE][0]
    assume_role_args["RoleArn"], assume_role_args["PrincipalArn"] = role.split(",")
except IndexError:
    raise AWSPluginError(f"No role ARN found in SAML assertion")
try:
    assume_role_args["DurationSeconds"] = int(assertion.attrs[DURATION][0])
except IndexError:
    pass
```

Only `IndexError` (an empty value list, i.e. an absent-or-empty attribute
statement) is caught: the `KeyError` raised by the attribute lookup when the
statement is non-empty but lacks the attribute propagates, as do the
`ValueError` of a comma count other than one, the `AttributeError` /
`TypeError` of a `None` value text, and the `ValueError` of an unparseable
duration. -/
def build_assume_role_with_saml_args (assertion : SAMLAssertion) :
    Except PyErr AssumeRoleWithSAMLArgs := do
  let roleArn ← do
    match saml_attrs_getitem assertion.attribute_statement roleAttributeName with
    | .keyError k => .error (.keyError k)
    | .ok [] => .error (.awsPluginError "No role ARN found in SAML assertion")
    | .ok (Option.none :: _) =>
      .error (.attributeError "NoneType object has no attribute split")
    | .ok (some role :: _) =>
      match splitComma role.toList with
      | [r, p] => (pure (String.mk r, String.mk p) : Except PyErr (String × String))
      | _ => .error (.valueError "unpacking role.split into two names failed")
  let durationSeconds ← do
    match saml_attrs_getitem assertion.attribute_statement durationAttributeName with
    | .keyError k => .error (.keyError k)
    | .ok [] => (pure Option.none : Except PyErr (Option Int))
    | .ok (Option.none :: _) => .error (.typeError "int() argument is None")
    | .ok (some d :: _) =>
      match pyInt d with
      | some n => pure (some n)
      | Option.none => .error (.valueError "invalid literal for int")
  return { samlAssertion := assertion.b64encoded
           roleArn := roleArn.1
           principalArn := roleArn.2
           durationSeconds := durationSeconds }

structure SAMLCredentialsRenewTrace where
  outcome : Except PyErr AWSSAMLRoleCredentials
  protocolRan : Bool
  /-- The `sts.assume_role_with_saml` call, when one was issued. -/
  stsCall : Option AssumeRoleWithSAMLArgs
  cacheWrite : Option AWSSAMLRoleCredentials
  deriving Repr

/-- `AWSSAMLRoleCredentials.renew(force)`: after the guard, dispatch the
SAML URL through the `saml_request` hook; no responding plugin raises
`AWSPluginError` naming the URL; otherwise build the exchange arguments,
call `sts.assume_role_with_saml`, optionally chain `assume_role`, and write
the entity back to `cache["credentials"][self.name]`. -/
def AWSSAMLRoleCredentials.renew (self : AWSSAMLRoleCredentials)
    (slot : RoleCredentialsSlot) (force : Bool) (now : ℚ)
    (registered : List SAMLProvider)
    (stsResp : STSCredentialsResponse)
    (assumeResp : STSCredentialsResponse) : SAMLCredentialsRenewTrace :=
  let loaded := self.load slot
  if !force && !is_expired loaded.expiration_timestamp now then
    ⟨.ok loaded, false, Option.none, Option.none⟩
  else
    match saml_request registered loaded.saml_url with
    | .error e => ⟨.error e, true, Option.none, Option.none⟩
    | .ok (Option.none, _) =>
      ⟨.error (.awsPluginError
          ("No plugins responded for SAML application URL: " ++ loaded.saml_url)),
        true, Option.none, Option.none⟩
    | .ok (some assertion, _) =>
      match build_assume_role_with_saml_args assertion with
      | .error e => ⟨.error e, true, Option.none, Option.none⟩
      | .ok args =>
        let c1 : AWSSAMLRoleCredentials :=
          { loaded with
            access_key_id := stsResp.accessKeyId
            secret_access_key := stsResp.secretAccessKey
            session_token := stsResp.sessionToken
            expiration_timestamp := stsResp.expirationTimestamp }
        let c2 := if c1.assume_role_arn ≠ "" then c1.apply_assume_role assumeResp else c1
        ⟨.ok c2, true, some args, some c2⟩

/-! ## `authum.persistence.KeyringItem`

```
def __init__(self, name, initial={}):
    ...
    self._data = {}
    self.update(initial) if initial else self.load()

def load(self):
    try:
        self._data = json.loads(str(keyring.get_password(self._service, self._name)))
    except json.decoder.JSONDecodeError:
        pass
```

`keyring.get_password` returns the stored string or `None`; `str()` turns a
missing entry into the literal string `"None"`, which no JSON decoder
accepts (JSON spells it `null`), so a missing entry always takes the
`JSONDecodeError` path.  The decoder itself (`json.loads`) is a parameter:
it returns the decoded dict or `Option.none` for `JSONDecodeError`. -/

/-- `str(keyring.get_password(...))`. -/
def strOfGetPassword : Option String → String
  | Option.none => "None"
  | some s => s

/-- `KeyringItem.load`: on a decode failure `self._data` is left untouched
and no error reaches the caller. -/
def KeyringItem.load (decode : String → Option PyDict) (data : PyDict)
    (backing : Option String) : PyDict :=
  match decode (strOfGetPassword backing) with
  | some d => d
  | Option.none => data

/-- `KeyringItem.__init__` with no `initial` argument (its default `{}` is
falsy): `_data = {}` then `load()`. -/
def KeyringItem.construct (decode : String → Option PyDict)
    (backing : Option String) : PyDict :=
  KeyringItem.load decode [] backing

/-! # Helper lemmas -/

theorem storeGet_storeSet (d : CredentialsStore) (k : String) (v : PyDict) :
    storeGet (storeSet d k v) k = some v := by
  induction d with
  | nil => simp [storeGet, storeSet, List.find?]
  | cons kv rest ih =>
    by_cases h : kv.1 = k
    · simp [storeSet, h, storeGet, List.find?]
    · have hb : (kv.1 == k) = false := by simp [h]
      simp only [storeSet, hb, Bool.false_eq_true, if_false]
      have hf : List.find? (fun kv => kv.1 == k) (kv :: storeSet rest k v)
          = List.find? (fun kv => kv.1 == k) (storeSet rest k v) := by
        simp [List.find?, hb]
      simpa only [storeGet, hf] using ih

theorem dictGet_load_cached_fields (self cache : PyDict) (f : String) (v : PyVal)
    (h : dictGet self f = some v) :
    dictGet (load_cached_fields self cache) f
      = some (if v.truthy then v else (dictGet cache f).getD v) := by
  induction self with
  | nil => simp [dictGet, List.find?] at h
  | cons kv rest ih =>
    by_cases hk : kv.1 = f
    · have hv : kv.2 = v := by
        have hb : (kv.1 == f) = true := by simp [hk]
        simpa [dictGet, List.find?, hb] using h
      by_cases ht : kv.2.truthy
      · simp [load_cached_fields, dictGet, List.find?, ht, hk, ← hv]
      · have ht' : kv.2.truthy = false := by simpa using ht
        simp [load_cached_fields, dictGet, List.find?, ht', hk, ← hv]
    · have hb : (kv.1 == f) = false := by simp [hk]
      have h' : dictGet rest f = some v := by
        simpa [dictGet, List.find?, hb] using h
      have := ih h'
      by_cases ht : kv.2.truthy
      · simpa [load_cached_fields, dictGet, List.find?, ht, hb] using this
      · have ht' : kv.2.truthy = false := by simpa using ht
        simpa [load_cached_fields, dictGet, List.find?, ht', hb] using this

theorem create_token_loop_sleeps_lb :
    ∀ (rs : List TokenResponse) (i x : ℚ), x ∈ (create_token_loop i rs).2 → i ≤ x := by
  intro rs
  induction rs with
  | nil => intro i x hx; simp [create_token_loop] at hx
  | cons r rest ih =>
    intro i x hx
    cases r with
    | success t e => simp [create_token_loop] at hx
    | authorizationPending =>
      simp only [create_token_loop, List.mem_cons] at hx
      rcases hx with rfl | hx
      · exact le_refl x
      · exact ih i x hx
    | slowDown =>
      simp only [create_token_loop, List.mem_cons] at hx
      rcases hx with rfl | hx
      · linarith
      · have := ih (i + 5) x hx; linarith
    | otherError m => simp [create_token_loop] at hx

theorem create_token_loop_sleeps_chain :
    ∀ (rs : List TokenResponse) (i : ℚ),
      List.Chain' (· ≤ ·) (create_token_loop i rs).2 := by
  intro rs
  induction rs with
  | nil => intro i; simp [create_token_loop]
  | cons r rest ih =>
    intro i
    cases r with
    | success t e => simp [create_token_loop]
    | authorizationPending =>
      simp only [create_token_loop]
      rw [List.chain'_cons']
      refine ⟨?_, ih i⟩
      intro b hb
      exact create_token_loop_sleeps_lb rest i b (List.mem_of_mem_head? hb)
    | slowDown =>
      simp only [create_token_loop]
      rw [List.chain'_cons']
      refine ⟨?_, ih (i + 5)⟩
      intro b hb
      exact create_token_loop_sleeps_lb rest (i + 5) b (List.mem_of_mem_head? hb)
    | otherError m => simp [create_token_loop]

theorem create_token_loop_ok_decomp :
    ∀ (rs : List TokenResponse) (i : ℚ) (t : String) (e : ℚ),
      (create_token_loop i rs).1 = .ok t e →
      ∃ pre post, rs = pre ++ .success t e :: post ∧
        ∀ r ∈ pre, r = .authorizationPending ∨ r = .slowDown := by
  intro rs
  induction rs with
  | nil => intro i t e h; simp [create_token_loop] at h
  | cons r rest ih =>
    intro i t e h
    cases r with
    | success t' e' =>
      simp only [create_token_loop, PollResult.ok.injEq] at h
      exact ⟨[], rest, by simp [h.1, h.2], by simp⟩
    | authorizationPending =>
      obtain ⟨pre, post, heq, hpre⟩ := ih i t e (by simpa [create_token_loop] using h)
      refine ⟨.authorizationPending :: pre, post, by simp [heq], ?_⟩
      intro x hx
      rcases List.mem_cons.mp hx with rfl | hx
      · exact Or.inl rfl
      · exact hpre x hx
    | slowDown =>
      obtain ⟨pre, post, heq, hpre⟩ := ih (i + 5) t e (by simpa [create_token_loop] using h)
      refine ⟨.slowDown :: pre, post, by simp [heq], ?_⟩
      intro x hx
      rcases List.mem_cons.mp hx with rfl | hx
      · exact Or.inr rfl
      · exact hpre x hx
    | otherError m => simp [create_token_loop] at h

theorem create_token_loop_raised_decomp :
    ∀ (rs : List TokenResponse) (i : ℚ) (m : String),
      (create_token_loop i rs).1 = .raised m →
      ∃ pre post, rs = pre ++ .otherError m :: post ∧
        ∀ r ∈ pre, r = .authorizationPending ∨ r = .slowDown := by
  intro rs
  induction rs with
  | nil => intro i m h; simp [create_token_loop] at h
  | cons r rest ih =>
    intro i m h
    cases r with
    | success t' e' => simp [create_token_loop] at h
    | authorizationPending =>
      obtain ⟨pre, post, heq, hpre⟩ := ih i m (by simpa [create_token_loop] using h)
      refine ⟨.authorizationPending :: pre, post, by simp [heq], ?_⟩
      intro x hx
      rcases List.mem_cons.mp hx with rfl | hx
      · exact Or.inl rfl
      · exact hpre x hx
    | slowDown =>
      obtain ⟨pre, post, heq, hpre⟩ := ih (i + 5) m (by simpa [create_token_loop] using h)
      refine ⟨.slowDown :: pre, post, by simp [heq], ?_⟩
      intro x hx
      rcases List.mem_cons.mp hx with rfl | hx
      · exact Or.inr rfl
      · exact hpre x hx
    | otherError m' =>
      simp only [create_token_loop, PollResult.raised.injEq] at h
      exact ⟨[], rest, by simp [h], by simp⟩

/-! # Claim theorems -/

/-- C4: in the device-authorization token polling loop, an
"authorization pending" reply keeps polling at the current interval, a
"slow down" reply strictly increases the interval and the slept intervals
are non-decreasing over the whole loop, the loop terminates successfully
only on a success reply, and any other provider error terminates the flow
with a failure (reached only after pending/slow-down replies). -/
theorem device_token_polling :
    (∀ (i : ℚ) (rs : List TokenResponse),
       List.Chain' (· ≤ ·) (create_token_loop i rs).2) ∧
    (∀ (i : ℚ) (rs : List TokenResponse),
       (create_token_loop i (.authorizationPending :: rs)).1 = (create_token_loop i rs).1 ∧
       (create_token_loop i (.authorizationPending :: rs)).2 = i :: (create_token_loop i rs).2) ∧
    (∀ (i : ℚ) (rs : List TokenResponse),
       (create_token_loop i (.slowDown :: rs)).1 = (create_token_loop (i + 5) rs).1 ∧
       (create_token_loop i (.slowDown :: rs)).2 = (i + 5) :: (create_token_loop (i + 5) rs).2 ∧
       i < i + 5) ∧
    (∀ (i : ℚ) (rs : List TokenResponse) (t : String) (e : ℚ),
       (create_token_loop i rs).1 = .ok t e →
       ∃ pre post, rs = pre ++ .success t e :: post ∧
         ∀ r ∈ pre, r = .authorizationPending ∨ r = .slowDown) ∧
    (∀ (i : ℚ) (rs : List TokenResponse) (m : String),
       (create_token_loop i rs).1 = .raised m →
       ∃ pre post, rs = pre ++ .otherError m :: post ∧
         ∀ r ∈ pre, r = .authorizationPending ∨ r = .slowDown) := by
  refine ⟨?_, ?_, ?_, ?_, ?_⟩
  · intro i rs; exact create_token_loop_sleeps_chain rs i
  · intro i rs; exact ⟨rfl, rfl⟩
  · intro i rs; exact ⟨rfl, rfl, by linarith⟩
  · intro i rs t e h; exact create_token_loop_ok_decomp rs i t e h
  · intro i rs m h; exact create_token_loop_raised_decomp rs i m h

/-- Witness for C4 at the spec's scenario
`[pending, pending, slow_down, success]` with initial interval 5. -/
theorem device_token_polling_witness :
    ((create_token_loop 5 [.authorizationPending, .authorizationPending, .slowDown,
        .success "EXAMPLEACCESSTOKEN" 28800]).1 = .ok "EXAMPLEACCESSTOKEN" 28800) ∧
    (∃ pre post,
      [TokenResponse.authorizationPending, .authorizationPending, .slowDown,
        .success "EXAMPLEACCESSTOKEN" 28800]
        = pre ++ .success "EXAMPLEACCESSTOKEN" 28800 :: post ∧
        ∀ r ∈ pre, r = .authorizationPending ∨ r = .slowDown) ∧
    List.Chain' (· ≤ ·) (create_token_loop 5 [TokenResponse.authorizationPending,
      .authorizationPending, .slowDown, .success "EXAMPLEACCESSTOKEN" 28800]).2 := by
  refine ⟨by decide, ?_, ?_⟩
  · exact device_token_polling.2.2.2.1 5 _ "EXAMPLEACCESSTOKEN" 28800 (by decide)
  · exact device_token_polling.1 5 _

/-- C5 counterexample: a timestamp one second before the smallest
representable datetime makes `fromtimestamp` raise `ValueError`, which the
code turns into a zero ttl, not `expiration - now`. -/
theorem ttl_equation_cex :
    ¬ (∀ e now : ℚ, ttl e now = e - now ∧
        (is_expired e now = true ↔ ttl e now < 0) ∧
        (e = 0 ∧ 0 < now → is_expired e now = true ∧ ttl e now < 0)) := by
  intro h
  have h1 := (h (-62135596801) 1).1
  have h2 : ttl (-62135596801) 1 = 0 := by
    norm_num [ttl, minTimestamp, maxTimestamp]
  rw [h2] at h1
  norm_num at h1

/-- C5 (amended): for a `CacheableAWSObject` whose expiration timestamp is
inside the representable datetime range, `ttl = expiration − now`; an
out-of-range (but `time_t`-convertible) timestamp yields a zero ttl via the
caught `ValueError`; `is_expired` holds exactly when `ttl` is negative; an
object with `expiration_timestamp = 0` has negative ttl and is expired
whenever the current time is after the Unix epoch. -/
theorem ttl_is_expired_spec : ∀ e now : ℚ,
    (minTimestamp ≤ e ∧ e < maxTimestamp → ttl e now = e - now) ∧
    (-timetBound ≤ e ∧ e ≤ timetBound ∧ ¬(minTimestamp ≤ e ∧ e < maxTimestamp) →
      ttl e now = 0) ∧
    (is_expired e now = true ↔ ttl e now < 0) ∧
    (0 < now → is_expired 0 now = true ∧ ttl 0 now < 0) := by
  intro e now
  refine ⟨?_, ?_, ?_, ?_⟩
  · intro h; simp [ttl, h]
  · intro h; simp [ttl, h.2.2]
  · simp [is_expired]
  · intro h
    have ht : ttl 0 now = 0 - now := by
      have hc : minTimestamp ≤ (0 : ℚ) ∧ (0 : ℚ) < maxTimestamp := by
        constructor <;> norm_num [minTimestamp, maxTimestamp]
      simp only [ttl, if_pos hc]
    constructor
    · simp [is_expired, ht]; linarith
    · rw [ht]; linarith

/-- Witness for C5 (amended) at concrete timestamps. -/
theorem ttl_is_expired_spec_witness :
    ttl 1672169185 1672169000 = 1672169185 - 1672169000 ∧
    ttl maxTimestamp 0 = 0 ∧
    (is_expired 0 5 = true ∧ ttl 0 5 < 0) := by
  refine ⟨(ttl_is_expired_spec 1672169185 1672169000).1
      (by constructor <;> norm_num [minTimestamp, maxTimestamp]),
    (ttl_is_expired_spec maxTimestamp 0).2.1
      (by refine ⟨by norm_num [maxTimestamp, timetBound], by norm_num [maxTimestamp, timetBound], ?_⟩
          norm_num [minTimestamp, maxTimestamp]),
    (ttl_is_expired_spec 0 5).2.2.2 (by norm_num)⟩

/-- C7: a missing keyring entry (`str(None) = "None"`, which no JSON decoder
accepts) or undecodable keyring data leaves the in-memory data untouched and
raises nothing; at construction, where the in-memory data starts empty, the
result is the empty mapping. -/
theorem keyring_load_best_effort :
    (∀ (decode : String → Option PyDict) (data : PyDict) (backing : Option String),
       decode (strOfGetPassword backing) = Option.none →
       KeyringItem.load decode data backing = data) ∧
    (∀ (decode : String → Option PyDict),
       decode "None" = Option.none →
       KeyringItem.construct decode Option.none = []) ∧
    (∀ (decode : String → Option PyDict) (s : String),
       decode s = Option.none →
       KeyringItem.construct decode (some s) = []) := by
  refine ⟨?_, ?_, ?_⟩
  · intro decode data backing h
    simp [KeyringItem.load, h]
  · intro decode h
    simp [KeyringItem.construct, KeyringItem.load, strOfGetPassword, h]
  · intro decode s h
    simp [KeyringItem.construct, KeyringItem.load, strOfGetPassword, h]

/-- Witness for C7 with a decoder that rejects everything (in particular the
string `"None"`). -/
theorem keyring_load_best_effort_witness :
    KeyringItem.load (fun _ => Option.none) [("foo", .str "bar")] Option.none
      = [("foo", .str "bar")] ∧
    KeyringItem.construct (fun _ => Option.none) Option.none = [] ∧
    KeyringItem.construct (fun _ => Option.none) (some "certainly not json") = [] :=
  ⟨keyring_load_best_effort.1 _ _ _ rfl,
   keyring_load_best_effort.2.1 _ rfl,
   keyring_load_best_effort.2.2 _ _ rfl⟩

/-- C6 counterexample: an explicitly supplied falsy value (here the empty
string for `session_token`, which the caller may pass on purpose) does not
survive `load`: the cached value overwrites it. -/
theorem load_cached_fields_supplied_cex :
    ¬ (∀ (defaults supplied cache : PyDict) (f : String) (v : PyVal),
        dictGet supplied f = some v →
        dictGet (load_cached_fields (dataclass_construct defaults supplied) cache) f
          = some v) := by
  intro h
  have := h [("session_token", .str "")] [("session_token", .str "")]
    [("session_token", .str "EXAMPLECACHED")] "session_token" (.str "") (by decide)
  rw [show dictGet (load_cached_fields
      (dataclass_construct [("session_token", .str "")] [("session_token", .str "")])
      [("session_token", .str "EXAMPLECACHED")]) "session_token"
      = some (.str "EXAMPLECACHED") by decide] at this
  exact absurd this (by decide)

/-- C6 (amended): `load` replaces exactly the fields whose current value is
falsy: a truthy field value — in particular every truthy value the caller
supplied — is retained exactly, and a falsy field takes the cached value
when the cache slot has one (keeping its value otherwise). -/
theorem load_cached_fields_hydration : ∀ (self cache : PyDict) (f : String) (v : PyVal),
    dictGet self f = some v →
    (v.truthy = true → dictGet (load_cached_fields self cache) f = some v) ∧
    (v.truthy = false →
      dictGet (load_cached_fields self cache) f = some ((dictGet cache f).getD v)) := by
  intro self cache f v h
  constructor
  · intro ht
    rw [dictGet_load_cached_fields self cache f v h, ht]
    simp
  · intro ht
    rw [dictGet_load_cached_fields self cache f v h, ht]
    simp

/-- Witness for C6 (amended): a truthy field survives `load`, a falsy field
is hydrated from the cache. -/
theorem load_cached_fields_hydration_witness :
    dictGet (load_cached_fields
        [("access_key_id", .str "EXAMPLEKEY"), ("session_token", .str "")]
        [("access_key_id", .str "CACHEDKEY"), ("session_token", .str "CACHEDTOKEN")])
      "access_key_id" = some (.str "EXAMPLEKEY") ∧
    dictGet (load_cached_fields
        [("access_key_id", .str "EXAMPLEKEY"), ("session_token", .str "")]
        [("access_key_id", .str "CACHEDKEY"), ("session_token", .str "CACHEDTOKEN")])
      "session_token"
      = some ((dictGet [("access_key_id", .str "CACHEDKEY"),
          ("session_token", .str "CACHEDTOKEN")] "session_token").getD (.str "")) :=
  ⟨(load_cached_fields_hydration _ _ _ (.str "EXAMPLEKEY") (by decide)).1 (by decide),
   (load_cached_fields_hydration _ _ _ (.str "") (by decide)).2 (by decide)⟩

/-- C1: for each cacheable AWS object (SSO registration, SSO authorization,
SSO role credentials, SAML role credentials), `renew(force=False)` returns
the loaded state untouched — no provider protocol, no cache write, no
polling sleep — whenever the loaded state is unexpired; and
`renew(force=True)` always executes the provider renewal protocol. -/
theorem renew_ttl_guard :
    (∀ (self : AWSSSORegistration) (slot : RegistrationSlot) (now : ℚ)
        (resp : RegisterClientResponse),
       (is_expired (self.load slot).expiration_timestamp now = false →
         self.renew slot false now resp = ⟨self.load slot, false, Option.none⟩) ∧
       (self.renew slot true now resp).protocolRan = true) ∧
    (∀ (self : AWSSSOAuthorization) (reg : AWSSSORegistration)
        (slot : AuthorizationSlot) (now : ℚ) (authz : DeviceAuthorizationResponse)
        (toks : List TokenResponse),
       (is_expired (self.load slot).expiration_timestamp now = false →
         self.renew reg slot false now authz toks
           = ⟨.ok (self.load slot), false, Option.none, []⟩) ∧
       (self.renew reg slot true now authz toks).protocolRan = true) ∧
    (∀ (self : AWSSSORoleCredentials) (slot : RoleCredentialsSlot) (now : ℚ)
        (regSlot : RegistrationSlot) (regResp : RegisterClientResponse)
        (authzSlot : AuthorizationSlot) (authzResp : DeviceAuthorizationResponse)
        (toks : List TokenResponse) (roleResp : GetRoleCredentialsResponse)
        (assumeResp : STSCredentialsResponse),
       (is_expired (self.load slot).expiration_timestamp now = false →
         self.renew slot false now regSlot regResp authzSlot authzResp toks roleResp assumeResp
           = ⟨.ok (self.load slot), false, Option.none⟩) ∧
       (self.renew slot true now regSlot regResp authzSlot authzResp toks roleResp
          assumeResp).protocolRan = true) ∧
    (∀ (self : AWSSAMLRoleCredentials) (slot : RoleCredentialsSlot) (now : ℚ)
        (registered : List SAMLProvider) (stsResp assumeResp : STSCredentialsResponse),
       (is_expired (self.load slot).expiration_timestamp now = false →
         self.renew slot false now registered stsResp assumeResp
           = ⟨.ok (self.load slot), false, Option.none, Option.none⟩) ∧
       (self.renew slot true now registered stsResp assumeResp).protocolRan = true) := by
  refine ⟨?_, ?_, ?_, ?_⟩
  · intro self slot now resp
    constructor
    · intro h; simp [AWSSSORegistration.renew, h]
    · simp only [AWSSSORegistration.renew, Bool.not_true, Bool.false_and,
        Bool.false_eq_true, if_false]
  · intro self reg slot now authz toks
    constructor
    · intro h; simp [AWSSSOAuthorization.renew, h]
    · simp only [AWSSSOAuthorization.renew, Bool.not_true, Bool.false_and,
        Bool.false_eq_true, if_false]
      split <;> rfl
  · intro self slot now regSlot regResp authzSlot authzResp toks roleResp assumeResp
    constructor
    · intro h; simp [AWSSSORoleCredentials.renew, h]
    · simp only [AWSSSORoleCredentials.renew, Bool.not_true, Bool.false_and,
        Bool.false_eq_true, if_false]
      split <;> rfl
  · intro self slot now registered stsResp assumeResp
    constructor
    · intro h; simp [AWSSAMLRoleCredentials.renew, h]
    · simp only [AWSSAMLRoleCredentials.renew, Bool.not_true, Bool.false_and,
        Bool.false_eq_true, if_false]
      split
      · rfl
      · rfl
      · split <;> rfl

/-- Witness for C1: each of the four objects, holding an unexpired cached
state (`expiration_timestamp = 100`, `now = 0`), is returned untouched by
`renew(force=False)`, and `renew(force=True)` runs the protocol. -/
theorem renew_ttl_guard_witness :
    (AWSSSORegistration.renew ⟨100, "cid", "cs"⟩ ⟨Option.none, Option.none, Option.none⟩
        false 0 ⟨"id2", "sec2", 7⟩
      = ⟨AWSSSORegistration.load ⟨100, "cid", "cs"⟩ ⟨Option.none, Option.none, Option.none⟩,
         false, Option.none⟩) ∧
    ((AWSSSORegistration.renew ⟨100, "cid", "cs"⟩ ⟨Option.none, Option.none, Option.none⟩
        true 0 ⟨"id2", "sec2", 7⟩).protocolRan = true) ∧
    (AWSSSOAuthorization.renew ⟨100, "https://x.awsapps.com/start#/", "tok"⟩
        ⟨100, "cid", "cs"⟩ ⟨Option.none, Option.none, Option.none⟩ false 0
        ⟨"https://verify", "dev", 5⟩ []
      = ⟨.ok (AWSSSOAuthorization.load ⟨100, "https://x.awsapps.com/start#/", "tok"⟩
           ⟨Option.none, Option.none, Option.none⟩), false, Option.none, []⟩) ∧
    ((AWSSSOAuthorization.renew ⟨100, "https://x.awsapps.com/start#/", "tok"⟩
        ⟨100, "cid", "cs"⟩ ⟨Option.none, Option.none, Option.none⟩ true 0
        ⟨"https://verify", "dev", 5⟩ []).protocolRan = true) ∧
    (AWSSSORoleCredentials.renew
        ⟨100, "n", "AK", "SK", "ST", "", "", "", "https://x.awsapps.com/start#/", "acct", "role"⟩
        ⟨Option.none, Option.none, Option.none, Option.none, Option.none, Option.none,
         Option.none, Option.none, Option.none, Option.none, Option.none, Option.none⟩
        false 0 ⟨Option.none, Option.none, Option.none⟩ ⟨"id2", "sec2", 7⟩
        ⟨Option.none, Option.none, Option.none⟩ ⟨"https://verify", "dev", 5⟩ []
        ⟨"AK2", "SK2", "ST2", 9000⟩ ⟨"AK3", "SK3", "ST3", 9⟩
      = ⟨.ok (AWSSSORoleCredentials.load
           ⟨100, "n", "AK", "SK", "ST", "", "", "", "https://x.awsapps.com/start#/", "acct", "role"⟩
           ⟨Option.none, Option.none, Option.none, Option.none, Option.none, Option.none,
            Option.none, Option.none, Option.none, Option.none, Option.none, Option.none⟩),
         false, Option.none⟩) ∧
    ((AWSSSORoleCredentials.renew
        ⟨100, "n", "AK", "SK", "ST", "", "", "", "https://x.awsapps.com/start#/", "acct", "role"⟩
        ⟨Option.none, Option.none, Option.none, Option.none, Option.none, Option.none,
         Option.none, Option.none, Option.none, Option.none, Option.none, Option.none⟩
        true 0 ⟨Option.none, Option.none, Option.none⟩ ⟨"id2", "sec2", 7⟩
        ⟨Option.none, Option.none, Option.none⟩ ⟨"https://verify", "dev", 5⟩ []
        ⟨"AK2", "SK2", "ST2", 9000⟩ ⟨"AK3", "SK3", "ST3", 9⟩).protocolRan = true) ∧
    (AWSSAMLRoleCredentials.renew
        ⟨100, "n", "AK", "SK", "ST", "", "", "", "https://idp.example.com/app"⟩
        ⟨Option.none, Option.none, Option.none, Option.none, Option.none, Option.none,
         Option.none, Option.none, Option.none, Option.none, Option.none, Option.none⟩
        false 0 [] ⟨"AK2", "SK2", "ST2", 9⟩ ⟨"AK3", "SK3", "ST3", 9⟩
      = ⟨.ok (AWSSAMLRoleCredentials.load
           ⟨100, "n", "AK", "SK", "ST", "", "", "", "https://idp.example.com/app"⟩
           ⟨Option.none, Option.none, Option.none, Option.none, Option.none, Option.none,
            Option.none, Option.none, Option.none, Option.none, Option.none, Option.none⟩),
         false, Option.none, Option.none⟩) ∧
    ((AWSSAMLRoleCredentials.renew
        ⟨100, "n", "AK", "SK", "ST", "", "", "", "https://idp.example.com/app"⟩
        ⟨Option.none, Option.none, Option.none, Option.none, Option.none, Option.none,
         Option.none, Option.none, Option.none, Option.none, Option.none, Option.none⟩
        true 0 [] ⟨"AK2", "SK2", "ST2", 9⟩ ⟨"AK3", "SK3", "ST3", 9⟩).protocolRan = true) := by
  have hexp : is_expired 100 0 = false := by
    norm_num [is_expired, ttl, minTimestamp, maxTimestamp]
  refine ⟨(renew_ttl_guard.1 _ _ _ _).1 ?_, (renew_ttl_guard.1 _ _ _ _).2,
    (renew_ttl_guard.2.1 _ _ _ _ _ _).1 ?_, (renew_ttl_guard.2.1 _ _ _ _ _ _).2,
    (renew_ttl_guard.2.2.1 _ _ _ _ _ _ _ _ _ _).1 ?_,
    (renew_ttl_guard.2.2.1 _ _ _ _ _ _ _ _ _ _).2,
    (renew_ttl_guard.2.2.2 _ _ _ _ _ _).1 ?_, (renew_ttl_guard.2.2.2 _ _ _ _ _ _).2⟩ <;>
    simpa [AWSSSORegistration.load, AWSSSOAuthorization.load, AWSSSORoleCredentials.load,
      AWSSAMLRoleCredentials.load, loadNum, loadStr] using hexp

/-- C10 counterexample: a statement holding a childless attribute with the
requested name ahead of a non-empty one with the same name: the lookup finds
the first (falsy) one and raises `KeyError` even though a non-empty
`Attribute` carrying the name exists. -/
theorem saml_attrs_first_match_cex :
    ¬ (∀ (st : Option (List SAMLAttr)) (k : String),
        (∃ kk, saml_attrs_getitem st k = .keyError kk) →
        ∃ stmt, st = some stmt ∧ stmt ≠ [] ∧
          ¬ ∃ a ∈ stmt, a.name = k ∧ a.values ≠ []) := by
  intro h
  obtain ⟨stmt, hst, _, hno⟩ :=
    h (some [⟨"x", []⟩, ⟨"x", [some "v"]⟩]) "x" ⟨"x", by decide⟩
  apply hno
  refine ⟨⟨"x", [some "v"]⟩, ?_, rfl, by decide⟩
  rw [← Option.some.inj hst]
  simp

theorem find?_name_decomp {stmt : List SAMLAttr} {k : String} {a : SAMLAttr}
    (h : stmt.find? (fun x => x.name == k) = some a) :
    a.name = k ∧ ∃ pre post, stmt = pre ++ a :: post ∧ ∀ b ∈ pre, b.name ≠ k := by
  induction stmt with
  | nil => simp [List.find?] at h
  | cons x rest ih =>
    by_cases hx : x.name = k
    · have hb : (x.name == k) = true := by simp [hx]
      rw [List.find?, hb] at h
      obtain rfl : x = a := Option.some.inj h
      exact ⟨hx, [], rest, rfl, by simp⟩
    · have hb : (x.name == k) = false := by simp [hx]
      rw [List.find?, hb] at h
      obtain ⟨h1, pre, post, heq, hpre⟩ := ih h
      refine ⟨h1, x :: pre, post, by simp [heq], ?_⟩
      intro b hb'
      rcases List.mem_cons.mp hb' with rfl | hb'
      · exact hx
      · exact hpre b hb'

theorem find?_name_of_decomp {pre post : List SAMLAttr} {k : String} {a : SAMLAttr}
    (ha : a.name = k) (hpre : ∀ b ∈ pre, b.name ≠ k) :
    (pre ++ a :: post).find? (fun x => x.name == k) = some a := by
  induction pre with
  | nil => simp [List.find?, ha]
  | cons b rest ih =>
    have hb : (b.name == k) = false := by simp [hpre b (by simp)]
    rw [List.cons_append, List.find?, hb]
    exact ih (fun x hx => hpre x (by simp [hx]))

/-- C10 (amended): when the parsed document has no attribute statement, or
an attribute statement without children, lookup returns `[]` for every name
and never raises; a `KeyError` is raised exactly when the statement has at
least one child and the *first* `Attribute` carrying the requested name is
absent or childless (a later non-empty attribute of the same name cannot
prevent it). -/
theorem saml_attrs_getitem_spec :
    (∀ (st : Option (List SAMLAttr)) (k : String),
       (st = Option.none ∨ st = some []) → saml_attrs_getitem st k = .ok []) ∧
    (∀ (stmt : List SAMLAttr) (k : String),
       saml_attrs_getitem (some stmt) k = .keyError k ↔
         stmt ≠ [] ∧
           ((∀ a ∈ stmt, a.name ≠ k) ∨
            ∃ pre a post, stmt = pre ++ a :: post ∧ a.name = k ∧ a.values = [] ∧
              ∀ b ∈ pre, b.name ≠ k)) := by
  constructor
  · rintro st k (rfl | rfl) <;> simp [saml_attrs_getitem]
  · intro stmt k
    rcases hstmt : stmt with _ | ⟨x, rest⟩
    · simp [saml_attrs_getitem]
    rw [← hstmt]
    have hne : stmt ≠ [] := by simp [hstmt]
    have hemp : stmt.isEmpty = false := by simp [hstmt]
    constructor
    · intro h
      refine ⟨hne, ?_⟩
      rcases hf : stmt.find? (fun x => x.name == k) with _ | a
      · exact Or.inl (by simpa [List.find?_eq_none] using hf)
      · obtain ⟨hak, pre, post, heq, hpre⟩ := find?_name_decomp hf
        simp only [saml_attrs_getitem, hemp, Bool.false_eq_true, if_false, hf] at h
        rcases hv : a.values with _ | _
        · exact Or.inr ⟨pre, a, post, heq, hak, hv, hpre⟩
        · rw [hv] at h; simp at h
    · rintro ⟨-, hcase | ⟨pre, a, post, heq, hak, hv, hpre⟩⟩
      · have hf : stmt.find? (fun x => x.name == k) = Option.none := by
          rw [List.find?_eq_none]
          intro x hx
          simp [hcase x hx]
        simp [saml_attrs_getitem, hemp, hf]
      · have hf : stmt.find? (fun x => x.name == k) = some a := by
          rw [heq]; exact find?_name_of_decomp hak hpre
        simp [saml_attrs_getitem, hemp, hf, hv]

/-- Witness for C10 (amended): an assertion without any attribute statement
returns `[]`, and a one-child statement without the requested name raises
`KeyError` per the characterization. -/
theorem saml_attrs_getitem_spec_witness :
    saml_attrs_getitem Option.none "https://aws.amazon.com/SAML/Attributes/Role" = .ok [] ∧
    (saml_attrs_getitem (some [⟨"uid", [some "test"]⟩]) "mail" = .keyError "mail" ↔
      ([⟨"uid", [some "test"]⟩] : List SAMLAttr) ≠ [] ∧
        ((∀ a ∈ ([⟨"uid", [some "test"]⟩] : List SAMLAttr), a.name ≠ "mail") ∨
         ∃ pre a post, ([⟨"uid", [some "test"]⟩] : List SAMLAttr) = pre ++ a :: post ∧
           a.name = "mail" ∧ a.values = [] ∧ ∀ b ∈ pre, b.name ≠ "mail")) :=
  ⟨saml_attrs_getitem_spec.1 Option.none _ (Or.inl rfl),
   saml_attrs_getitem_spec.2 [⟨"uid", [some "test"]⟩] "mail"⟩

theorem sso_asdict_start_url (c : AWSSSORoleCredentials) :
    dictGet c.asdict "start_url" = some (.str c.start_url) := rfl

theorem saml_asdict_start_url (c : AWSSAMLRoleCredentials) :
    dictGet c.asdict "start_url" = Option.none := rfl

theorem sso_construct_asdict (c : AWSSSORoleCredentials) (h : c.post_init = .ok ()) :
    AWSSSORoleCredentials.construct c.asdict = .ok c := by
  have heq : AWSSSORoleCredentials.construct c.asdict
      = (fun _ : Unit => c) <$> c.post_init := rfl
  rw [heq, h]
  rfl

theorem saml_construct_asdict (c : AWSSAMLRoleCredentials) (h : c.post_init = .ok ()) :
    AWSSAMLRoleCredentials.construct c.asdict = .ok c := by
  have heq : AWSSAMLRoleCredentials.construct c.asdict
      = (fun _ : Unit => c) <$> c.post_init := rfl
  rw [heq, h]
  rfl

/-- C8: storing role credentials of either variant under a name and reading
them back by that name returns the same variant with every field equal
(construction re-runs `__post_init__`, which any existing instance — its
required fields are non-empty by construction — passes). -/
theorem credentials_roundtrip :
    (∀ (store : CredentialsStore) (name : String) (c : AWSSSORoleCredentials),
       c.post_init = .ok () →
       AWSData.credentials (AWSData.set_sso_credentials store name c) name
         = .ok (.inl c)) ∧
    (∀ (store : CredentialsStore) (name : String) (c : AWSSAMLRoleCredentials),
       c.post_init = .ok () →
       AWSData.credentials (AWSData.set_saml_credentials store name c) name
         = .ok (.inr c)) := by
  constructor
  · intro store name c h
    simp only [AWSData.credentials, AWSData.set_sso_credentials,
      storeGet_storeSet store name c.asdict, sso_asdict_start_url,
      Option.isSome_some, if_true, sso_construct_asdict c h]
    rfl
  · intro store name c h
    simp only [AWSData.credentials, AWSData.set_saml_credentials,
      storeGet_storeSet store name c.asdict, saml_asdict_start_url,
      Option.isSome_none, Bool.false_eq_true, if_false, saml_construct_asdict c h]
    rfl

/-- Witness for C8 with one concrete instance of each variant. -/
theorem credentials_roundtrip_witness :
    AWSData.credentials (AWSData.set_sso_credentials [] "example_sso"
        ⟨1672169185, "example_sso", "AK", "SK", "ST", "", "", "",
         "https://test.awsapps.com/start#/", "123456789012", "TestRole"⟩) "example_sso"
      = .ok (.inl ⟨1672169185, "example_sso", "AK", "SK", "ST", "", "", "",
         "https://test.awsapps.com/start#/", "123456789012", "TestRole"⟩) ∧
    AWSData.credentials (AWSData.set_saml_credentials [] "example_saml"
        ⟨0, "example_saml", "AK", "SK", "ST", "", "", "",
         "https://idp.example.com/app"⟩) "example_saml"
      = .ok (.inr ⟨0, "example_saml", "AK", "SK", "ST", "", "", "",
         "https://idp.example.com/app"⟩) :=
  ⟨credentials_roundtrip.1 [] "example_sso" _ rfl,
   credentials_roundtrip.2 [] "example_saml" _ rfl⟩

/-! ## C2: concrete inputs for the SAML attribute-extraction bug -/

/-- The role value from the spec's scenario. -/
def exampleRoleValue : String :=
  "arn:aws:iam::123456789012:role/Test,arn:aws:iam::123456789012:saml-provider/Example"

/-- The spec scenario's assertion: the role attribute present, no
session-duration attribute; the attribute statement is therefore
non-empty. -/
def roleOnlyAssertion : SAMLAssertion :=
  { b64encoded := "QkFTRTY0RVhBTVBMRQ=="
    attribute_statement := some [⟨roleAttributeName, [some exampleRoleValue]⟩] }

def exampleSAMLCreds : AWSSAMLRoleCredentials :=
  ⟨0, "example_saml", "", "", "", "", "", "", "https://idp.example.com/app"⟩

def emptyRoleSlot : RoleCredentialsSlot :=
  ⟨Option.none, Option.none, Option.none, Option.none, Option.none, Option.none,
   Option.none, Option.none, Option.none, Option.none, Option.none, Option.none⟩

def exampleSAMLProvider : SAMLProvider :=
  ⟨"okta", "idp.example.com", roleOnlyAssertion⟩

/-- C2 (code bug): on the spec's own scenario — an assertion whose non-empty
attribute statement carries the role attribute and no session-duration
attribute — the renewal does not omit `DurationSeconds` and proceed: the
session-duration lookup raises `KeyError`, which `except IndexError` does
not catch, so the renewal dies before any STS exchange (`stsCall` stays
`None`).  Likewise an assertion whose non-empty statement lacks the role
attribute raises `KeyError` instead of the documented `AWSPluginError`; the
advertised `AWSPluginError` path is reached only when the whole attribute
statement is absent or childless (where lookups return `[]` and `[0]`
raises `IndexError`). -/
theorem saml_renew_duration_keyerror :
    build_assume_role_with_saml_args roleOnlyAssertion
        = .error (.keyError durationAttributeName) ∧
    (AWSSAMLRoleCredentials.renew exampleSAMLCreds emptyRoleSlot true 0
        [exampleSAMLProvider] ⟨"AK", "SK", "ST", 9⟩ ⟨"AK2", "SK2", "ST2", 9⟩).outcome
        = .error (.keyError durationAttributeName) ∧
    (AWSSAMLRoleCredentials.renew exampleSAMLCreds emptyRoleSlot true 0
        [exampleSAMLProvider] ⟨"AK", "SK", "ST", 9⟩ ⟨"AK2", "SK2", "ST2", 9⟩).stsCall
        = Option.none ∧
    build_assume_role_with_saml_args ⟨"QkFTRTY0", some [⟨"uid", [some "test"]⟩]⟩
        = .error (.keyError roleAttributeName) ∧
    build_assume_role_with_saml_args ⟨"QkFTRTY0", some []⟩
        = .error (.awsPluginError "No role ARN found in SAML assertion") :=
  ⟨rfl, rfl, rfl, rfl, rfl⟩

/-! ## C3: first-responder dispatch -/

/-- The dispatcher as the specification words it ("call providers in
registration order"): same first-responder semantics, but over the
registration list as-is.  Spec-comparison definition only; the embedded
`saml_request` follows pluggy's actual LIFO call order. -/
def saml_request_spec_order (registered : List SAMLProvider) (url : String) :
    Except PyErr (Option SAMLAssertion × List String) :=
  firstresult url registered

def providerOne : SAMLProvider :=
  ⟨"prov1", "idp.example.com", ⟨"QXNzZXJ0aW9uMQ==", Option.none⟩⟩

def providerTwo : SAMLProvider :=
  ⟨"prov2", "idp.example.com", ⟨"QXNzZXJ0aW9uMg==", Option.none⟩⟩

theorem except_bind_ok {ε α β : Type} (a : α) (f : α → Except ε β) :
    (Except.ok a : Except ε α) >>= f = f a := rfl

theorem except_bind_error {ε α β : Type} (e : ε) (f : α → Except ε β) :
    (Except.error e : Except ε α) >>= f = Except.error e := rfl

theorem except_pure {ε α : Type} (a : α) :
    (pure a : Except ε α) = Except.ok a := rfl

theorem firstresult_cons_error {url : String} {p : SAMLProvider}
    (rest : List SAMLProvider) {e : PyErr}
    (hd : url_has_domain url p.domain = .error e) :
    firstresult url (p :: rest) = .error e := by
  simp [firstresult, providerStep, hd, except_bind_error, except_bind_ok, except_pure,
    Except.bind]

theorem firstresult_cons_true {url : String} {p : SAMLProvider}
    (rest : List SAMLProvider)
    (hd : url_has_domain url p.domain = .ok true) :
    firstresult url (p :: rest) = .ok (some p.assertion, [p.name]) := by
  simp [firstresult, providerStep, hd, except_bind_error, except_bind_ok, except_pure,
    Except.bind]

theorem firstresult_cons_false {url : String} {p : SAMLProvider}
    (rest : List SAMLProvider)
    (hd : url_has_domain url p.domain = .ok false) :
    firstresult url (p :: rest) = firstresult url rest := by
  simp [firstresult, providerStep, hd, except_bind_error, except_bind_ok, except_pure,
    Except.bind]

theorem firstresult_some_decomp :
    ∀ (url : String) (ps : List SAMLProvider) (a : SAMLAssertion) (ran : List String),
      firstresult url ps = .ok (some a, ran) →
      ∃ pre p post, ps = pre ++ p :: post ∧
        (∀ q ∈ pre, url_has_domain url q.domain = .ok false) ∧
        url_has_domain url p.domain = .ok true ∧ a = p.assertion ∧ ran = [p.name] := by
  intro url ps
  induction ps with
  | nil => intro a ran h; simp [firstresult] at h
  | cons p rest ih =>
    intro a ran h
    rcases hd : url_has_domain url p.domain with e | b
    · rw [firstresult_cons_error rest hd] at h
      cases h
    · cases b with
      | true =>
        rw [firstresult_cons_true rest hd] at h
        have h2 := Except.ok.inj h
        rw [Prod.mk.injEq] at h2
        exact ⟨[], p, rest, rfl, by simp, hd, (Option.some.inj h2.1).symm, h2.2.symm⟩
      | false =>
        rw [firstresult_cons_false rest hd] at h
        obtain ⟨pre, q, post, heq, hpre, hq, ha, hran⟩ := ih a ran h
        refine ⟨p :: pre, q, post, by simp [heq], ?_, hq, ha, hran⟩
        intro x hx
        rcases List.mem_cons.mp hx with rfl | hx
        · exact hd
        · exact hpre x hx

theorem firstresult_none_decomp :
    ∀ (url : String) (ps : List SAMLProvider) (ran : List String),
      firstresult url ps = .ok (Option.none, ran) →
      ran = [] ∧ ∀ q ∈ ps, url_has_domain url q.domain = .ok false := by
  intro url ps
  induction ps with
  | nil =>
    intro ran h
    have h2 := Except.ok.inj h
    rw [Prod.mk.injEq] at h2
    exact ⟨h2.2.symm, by simp⟩
  | cons p rest ih =>
    intro ran h
    rcases hd : url_has_domain url p.domain with e | b
    · rw [firstresult_cons_error rest hd] at h
      cases h
    · cases b with
      | true =>
        rw [firstresult_cons_true rest hd] at h
        have h2 := Except.ok.inj h
        rw [Prod.mk.injEq] at h2
        cases h2.1
      | false =>
        rw [firstresult_cons_false rest hd] at h
        obtain ⟨hran, hall⟩ := ih ran h
        refine ⟨hran, ?_⟩
        intro q hq
        rcases List.mem_cons.mp hq with rfl | hq
        · exact hd
        · exact hall q hq

/-- C3 counterexample: two providers registered as `[prov1, prov2]`, both
configured for the URL's domain.  pluggy's LIFO dispatch answers with the
*last* registered provider's assertion, so providers are not consulted in
registration order (the registration-order dispatcher would return the
first's). -/
theorem saml_dispatch_order_cex :
    saml_request [providerOne, providerTwo] "https://idp.example.com/app"
      ≠ saml_request_spec_order [providerOne, providerTwo]
          "https://idp.example.com/app" := by
  intro h
  rw [show saml_request [providerOne, providerTwo] "https://idp.example.com/app"
        = .ok (some providerTwo.assertion, ["prov2"]) from rfl,
      show saml_request_spec_order [providerOne, providerTwo]
          "https://idp.example.com/app"
        = .ok (some providerOne.assertion, ["prov1"]) from rfl] at h
  have h2 := Except.ok.inj h
  rw [Prod.mk.injEq] at h2
  exact absurd (Option.some.inj h2.1) (by decide)

/-- C3 (amended): the hook consults providers in *reverse* registration
order (pluggy's LIFO `_multicall`); in consultation order, a provider
attempts authentication only when the URL's hostname equals its configured
domain, dispatch stops at the first provider returning an assertion so no
other provider's authentication path executes, and when no registered
provider claims the URL `AWSSAMLRoleCredentials.renew` raises an
`AWSPluginError` naming the URL. -/
theorem saml_dispatch_first_responder :
    (∀ (registered : List SAMLProvider) (url : String),
       saml_request registered url = firstresult url registered.reverse) ∧
    (∀ (url : String) (ps : List SAMLProvider) (a : SAMLAssertion) (ran : List String),
       firstresult url ps = .ok (some a, ran) →
       ∃ pre p post, ps = pre ++ p :: post ∧
         (∀ q ∈ pre, url_has_domain url q.domain = .ok false) ∧
         url_has_domain url p.domain = .ok true ∧ a = p.assertion ∧ ran = [p.name]) ∧
    (∀ (url : String) (ps : List SAMLProvider) (ran : List String),
       firstresult url ps = .ok (Option.none, ran) →
       ran = [] ∧ ∀ q ∈ ps, url_has_domain url q.domain = .ok false) ∧
    (∀ (self : AWSSAMLRoleCredentials) (slot : RoleCredentialsSlot) (now : ℚ)
        (registered : List SAMLProvider) (stsResp assumeResp : STSCredentialsResponse)
        (ran : List String),
       saml_request registered (self.load slot).saml_url = .ok (Option.none, ran) →
       (self.renew slot true now registered stsResp assumeResp).outcome
         = .error (.awsPluginError ("No plugins responded for SAML application URL: "
             ++ (self.load slot).saml_url))) := by
  refine ⟨fun _ _ => rfl, firstresult_some_decomp, firstresult_none_decomp, ?_⟩
  intro self slot now registered stsResp assumeResp ran h
  simp only [AWSSAMLRoleCredentials.renew, Bool.not_true, Bool.false_and,
    Bool.false_eq_true, if_false, h]

/-- Witness for C3 (amended) at a single registered provider that claims
the URL, and at an empty registry for the unhandled-URL error. -/
theorem saml_dispatch_first_responder_witness :
    saml_request [providerOne] "https://idp.example.com/app"
      = firstresult "https://idp.example.com/app" [providerOne].reverse ∧
    (∃ pre p post, [providerOne] = pre ++ p :: post ∧
       (∀ q ∈ pre, url_has_domain "https://idp.example.com/app" q.domain = .ok false) ∧
       url_has_domain "https://idp.example.com/app" p.domain = .ok true ∧
       providerOne.assertion = p.assertion ∧ ["prov1"] = [p.name]) ∧
    ((exampleSAMLCreds.renew emptyRoleSlot true 0 [] ⟨"AK", "SK", "ST", 9⟩
        ⟨"AK2", "SK2", "ST2", 9⟩).outcome
      = .error (.awsPluginError ("No plugins responded for SAML application URL: "
          ++ (exampleSAMLCreds.load emptyRoleSlot).saml_url))) :=
  ⟨saml_dispatch_first_responder.1 [providerOne] "https://idp.example.com/app",
   saml_dispatch_first_responder.2.1 "https://idp.example.com/app" [providerOne]
     providerOne.assertion ["prov1"] rfl,
   saml_dispatch_first_responder.2.2.2 exampleSAMLCreds emptyRoleSlot 0 []
     ⟨"AK", "SK", "ST", 9⟩ ⟨"AK2", "SK2", "ST2", 9⟩ [] rfl⟩

/-! ## C9: `normalize_start_url` -/

theorem str_toList_append (a b : String) : (a ++ b).toList = a.toList ++ b.toList := rfl

theorem stripTabCrLf_append (a b : List Char) :
    stripTabCrLf (a ++ b) = stripTabCrLf a ++ stripTabCrLf b := by
  simp [stripTabCrLf]

theorem takeWhile_append_all {p : Char → Bool} :
    ∀ (l1 l2 : List Char), (∀ c ∈ l1, p c = true) →
      (l1 ++ l2).takeWhile p = l1 ++ l2.takeWhile p := by
  intro l1
  induction l1 with
  | nil => intro l2 h; simp
  | cons c rest ih =>
    intro l2 h
    have hc : p c = true := h c (List.mem_cons_self c rest)
    simp only [List.cons_append, List.takeWhile_cons, hc, if_true]
    rw [ih l2 (fun x hx => h x (List.mem_cons_of_mem c hx))]

theorem schemeScan_rest_sublist (first : Char) :
    ∀ (l acc s rest : List Char), schemeScan first acc l = some (s, rest) →
      List.Sublist rest l := by
  intro l
  induction l with
  | nil => intro acc s rest h; simp [schemeScan] at h
  | cons c tl ih =>
    intro acc s rest h
    simp only [schemeScan] at h
    split at h
    · split at h
      · obtain ⟨h1, h2⟩ := Prod.mk.injEq .. ▸ Option.some.inj h
        subst h2
        exact List.sublist_cons_self c tl
      · cases h
    · split at h
      · exact (ih _ _ _ h).cons c
      · cases h

theorem splitSchemeRest_rest_sublist (u : List Char) :
    List.Sublist (splitSchemeRest u).2 u := by
  cases u with
  | nil => simp [splitSchemeRest]
  | cons c0 tl =>
    simp only [splitSchemeRest]
    rcases hscan : schemeScan c0 [] (c0 :: tl) with _ | ⟨s, rest⟩
    · simp
    · simpa using schemeScan_rest_sublist c0 (c0 :: tl) [] s rest hscan

theorem netlocOf_mem (r : List Char) (c : Char) : c ∈ netlocOf r → c ∈ r := by
  unfold netlocOf
  split
  next r2 =>
    intro h
    exact List.mem_cons_of_mem _ (List.mem_cons_of_mem _
      ((List.takeWhile_sublist _).subset h))
  next => intro h; cases h

theorem urlsplit_candidate_mem (l : List Char) (c : Char)
    (h : c ∈ netlocOf (splitSchemeRest (stripTabCrLf (lstripC0 l))).2) : c ∈ l := by
  have h1 := netlocOf_mem _ c h
  have h2 := (splitSchemeRest_rest_sublist (stripTabCrLf (lstripC0 l))).subset h1
  have h3 := List.mem_of_mem_filter h2
  exact (List.dropWhile_sublist _).subset h3

theorem urlsplit_ok_of_ascii_no_brackets (l : List Char)
    (ha : ∀ c ∈ l, charIsASCII c = true) (h1 : '[' ∉ l) (h2 : ']' ∉ l) :
    urlsplit l = .ok ⟨(splitSchemeRest (stripTabCrLf (lstripC0 l))).1,
                      netlocOf (splitSchemeRest (stripTabCrLf (lstripC0 l))).2⟩ := by
  have hc1 : ¬ (('[' ∈ netlocOf (splitSchemeRest (stripTabCrLf (lstripC0 l))).2 ∧
        ']' ∉ netlocOf (splitSchemeRest (stripTabCrLf (lstripC0 l))).2) ∨
      (']' ∈ netlocOf (splitSchemeRest (stripTabCrLf (lstripC0 l))).2 ∧
        '[' ∉ netlocOf (splitSchemeRest (stripTabCrLf (lstripC0 l))).2)) := by
    rintro (⟨hb, -⟩ | ⟨hb, -⟩)
    · exact h1 (urlsplit_candidate_mem l '[' hb)
    · exact h2 (urlsplit_candidate_mem l ']' hb)
  have hc2 : ¬ ('[' ∈ netlocOf (splitSchemeRest (stripTabCrLf (lstripC0 l))).2 ∧
      ']' ∈ netlocOf (splitSchemeRest (stripTabCrLf (lstripC0 l))).2) := by
    rintro ⟨hb, -⟩
    exact h1 (urlsplit_candidate_mem l '[' hb)
  have hc3 : ¬ ¬ (netlocOf (splitSchemeRest (stripTabCrLf (lstripC0 l))).2).all
      charIsASCII := by
    rw [not_not, List.all_eq_true]
    intro c hc
    exact ha c (urlsplit_candidate_mem l c hc)
  simp only [urlsplit]
  rw [if_neg hc1, if_neg hc2, if_neg hc3]

theorem is_url_ok_of_ascii_no_brackets (s : String)
    (ha : ∀ c ∈ s.toList, charIsASCII c = true)
    (h1 : '[' ∉ s.toList) (h2 : ']' ∉ s.toList) :
    is_url s = .ok ((splitSchemeRest (stripTabCrLf (lstripC0 s.toList))).1 ≠ [] &&
        netlocOf (splitSchemeRest (stripTabCrLf (lstripC0 s.toList))).2 ≠ []) := by
  unfold is_url
  rw [urlsplit_ok_of_ascii_no_brackets s.toList ha h1 h2]
  rfl

theorem is_url_wrapped (s : String)
    (hs : ∀ c ∈ s.toList, charIsASCII c = true ∧
      c ≠ '/' ∧ c ≠ '?' ∧ c ≠ '#' ∧ c ≠ '[' ∧ c ≠ ']') :
    is_url ("https://" ++ s ++ "." ++ "awsapps.com" ++ "/start#/") = .ok true := by
  have hw : ("https://" ++ s ++ "." ++ "awsapps.com" ++ "/start#/").toList
      = "https://".toList ++ (s.toList ++ ".awsapps.com/start#/".toList) := by
    simp only [str_toList_append, List.append_assoc]
    rfl
  have hhdr : ∀ c ∈ "https://".toList, charIsASCII c = true := by decide
  have htl : ∀ c ∈ ".awsapps.com/start#/".toList, charIsASCII c = true := by decide
  have hwascii : ∀ c ∈ ("https://" ++ s ++ "." ++ "awsapps.com"
      ++ "/start#/").toList, charIsASCII c = true := by
    rw [hw]
    intro c hmem
    rcases List.mem_append.mp hmem with hmem | hmem
    · exact hhdr c hmem
    rcases List.mem_append.mp hmem with hmem | hmem
    · exact (hs c hmem).1
    · exact htl c hmem
  have hb1 : '[' ∉ ("https://" ++ s ++ "." ++ "awsapps.com" ++ "/start#/").toList := by
    rw [hw]
    intro hmem
    rcases List.mem_append.mp hmem with hmem | hmem
    · exact absurd hmem (by decide)
    rcases List.mem_append.mp hmem with hmem | hmem
    · exact (hs '[' hmem).2.2.2.2.1 rfl
    · exact absurd hmem (by decide)
  have hb2 : ']' ∉ ("https://" ++ s ++ "." ++ "awsapps.com" ++ "/start#/").toList := by
    rw [hw]
    intro hmem
    rcases List.mem_append.mp hmem with hmem | hmem
    · exact absurd hmem (by decide)
    rcases List.mem_append.mp hmem with hmem | hmem
    · exact (hs ']' hmem).2.2.2.2.2 rfl
    · exact absurd hmem (by decide)
  have hu : stripTabCrLf (lstripC0 ("https://".toList
        ++ (s.toList ++ ".awsapps.com/start#/".toList)))
      = "https://".toList ++ (stripTabCrLf s.toList ++ ".awsapps.com/start#/".toList) := by
    rw [show lstripC0 ("https://".toList ++ (s.toList ++ ".awsapps.com/start#/".toList))
        = "https://".toList ++ (s.toList ++ ".awsapps.com/start#/".toList) from rfl]
    rw [stripTabCrLf_append, stripTabCrLf_append]
    rfl
  have hss : splitSchemeRest ("https://".toList
        ++ (stripTabCrLf s.toList ++ ".awsapps.com/start#/".toList))
      = (['h', 't', 't', 'p', 's'],
         '/' :: '/' :: (stripTabCrLf s.toList ++ ".awsapps.com/start#/".toList)) := rfl
  have hnet : netlocOf ('/' :: '/'
        :: (stripTabCrLf s.toList ++ ".awsapps.com/start#/".toList))
      = stripTabCrLf s.toList ++ ".awsapps.com".toList := by
    rw [show netlocOf ('/' :: '/'
          :: (stripTabCrLf s.toList ++ ".awsapps.com/start#/".toList))
        = (stripTabCrLf s.toList ++ ".awsapps.com/start#/".toList).takeWhile
            (fun c => !netlocDelim c) from rfl]
    rw [takeWhile_append_all (stripTabCrLf s.toList) ".awsapps.com/start#/".toList ?_]
    · rfl
    · intro c hc
      obtain ⟨-, h1', h2', h3', -, -⟩ := hs c (List.mem_of_mem_filter hc)
      simp [netlocDelim, h1', h2', h3']
  have key := is_url_ok_of_ascii_no_brackets _ hwascii hb1 hb2
  rw [hw] at key
  rw [hu] at key
  rw [hss] at key
  simp only [hnet] at key
  rw [key]
  have hne : stripTabCrLf s.toList ++ ".awsapps.com".toList ≠ [] := by simp
  simp [hne]

/-- C9 counterexample: `normalize_start_url` is not idempotent.  The input
`"/"` is no URL, so it is wrapped into `"https:///.awsapps.com/start#/"` —
whose netloc is *empty* (the character right after `//` is `/`), so a second
application wraps it again instead of returning it unchanged. -/
theorem normalize_start_url_idempotent_cex :
    ¬ (∀ s : String, (normalize_start_url s).bind normalize_start_url
        = normalize_start_url s) := by
  intro h
  have h1 := h "/"
  rw [show normalize_start_url "/" = .ok "https:///.awsapps.com/start#/" from rfl] at h1
  rw [show (Except.ok "https:///.awsapps.com/start#/").bind normalize_start_url
      = .ok "https://https:///.awsapps.com/start#/.awsapps.com/start#/" from rfl] at h1
  exact absurd (Except.ok.inj h1) (by decide)

/-- C9 (amended): any input that already is a URL (scheme and netloc both
non-empty) is returned unchanged, and any other input is wrapped into
`https://<input>.awsapps.com/start#/`; `normalize_start_url` is idempotent
on every all-ASCII input containing none of `/`, `?`, `#`, `[`, `]` (an
already-URL input is idempotent trivially).  Idempotence does not hold in
general: wrapping an input starting with `/`, `?` or `#` yields a URL with
an empty netloc that is wrapped again, brackets can raise
`ValueError("Invalid IPv6 URL")`, and a non-ASCII input can make the second
parse raise `ValueError` under the netloc's NFKC validation (e.g. U+2100,
which normalizes to `a/c`). -/
theorem normalize_start_url_spec :
    (∀ s : String, is_url s = .ok true → normalize_start_url s = .ok s) ∧
    (∀ s : String, is_url s = .ok false →
       normalize_start_url s
         = .ok ("https://" ++ s ++ "." ++ "awsapps.com" ++ "/start#/")) ∧
    (∀ s : String,
       (∀ c ∈ s.toList, charIsASCII c = true ∧
         c ≠ '/' ∧ c ≠ '?' ∧ c ≠ '#' ∧ c ≠ '[' ∧ c ≠ ']') →
       ∃ u, normalize_start_url s = .ok u ∧ normalize_start_url u = .ok u) := by
  have hA : ∀ s : String, is_url s = .ok true → normalize_start_url s = .ok s := by
    intro s h
    unfold normalize_start_url
    rw [h]
    rfl
  have hB : ∀ s : String, is_url s = .ok false →
      normalize_start_url s
        = .ok ("https://" ++ s ++ "." ++ "awsapps.com" ++ "/start#/") := by
    intro s h
    unfold normalize_start_url
    rw [h]
    rfl
  refine ⟨hA, hB, ?_⟩
  intro s hs
  have hascii : ∀ c ∈ s.toList, charIsASCII c = true := fun c hm => (hs c hm).1
  have hb1 : '[' ∉ s.toList := fun hm => (hs _ hm).2.2.2.2.1 rfl
  have hb2 : ']' ∉ s.toList := fun hm => (hs _ hm).2.2.2.2.2 rfl
  rcases hiu : is_url s with e | b
  · have hok := is_url_ok_of_ascii_no_brackets s hascii hb1 hb2
    rw [hiu] at hok
    cases hok
  · cases b with
    | true => exact ⟨s, hA s hiu, hA s hiu⟩
    | false =>
      refine ⟨"https://" ++ s ++ "." ++ "awsapps.com" ++ "/start#/", hB s hiu, ?_⟩
      exact hA _ (is_url_wrapped s hs)

/-- Witness for C9 (amended): a URL input is returned unchanged, a
subdomain input is wrapped, and the wrap is idempotent. -/
theorem normalize_start_url_spec_witness :
    normalize_start_url "https://test.awsapps.com/start#/"
      = .ok "https://test.awsapps.com/start#/" ∧
    normalize_start_url "test"
      = .ok ("https://" ++ "test" ++ "." ++ "awsapps.com" ++ "/start#/") ∧
    (∃ u, normalize_start_url "test" = .ok u ∧ normalize_start_url u = .ok u) :=
  ⟨normalize_start_url_spec.1 _ rfl,
   normalize_start_url_spec.2.1 _ rfl,
   normalize_start_url_spec.2.2 "test" (by decide)⟩

end Authum
